import Mathlib

/-!
Shallow embedding of the hush shell core (shell/hush.c) and proofs about it.

Conventions used throughout:
* C strings are modelled as `List Char` (the terminating NUL is not part of
  the list; an embedded NUL in a string-backed input stream acts as EOF,
  matching `static_get`).
* C `int` results are modelled as `Int`.
* External collaborators (the OS glob(3) primitive, fork/exec, putenv
  success, child-process output of command substitutions) are oracle
  parameters, since the spec declares them out of scope.
* Functions that can call `bb_error_msg_and_die` return in the `CRes`
  type, whose `die` constructor models immediate process termination.
* Allocation is modelled as succeeding except where a claim is about
  allocation failure; there an explicit `Bool` oracle mirrors the C null
  check.
-/

namespace Hush

abbrev CStr := List Char

def str (s : String) : CStr := s.data

/-- SPECIAL_VAR_SYMBOL, the sentinel byte 03 delimiting deferred variable references. -/
def SPECIAL_VAR_SYMBOL : Char := Char.ofNat 3

def EXIT_SUCCESS : Int := 0
def EXIT_FAILURE : Int := 1
def B_NOSPAC : Int := 1
def GLOB_NOSPACE : Int := 1
def GLOB_NOMATCH : Int := 3

/-- Outcome of a C function that may terminate the whole process
(`bb_error_msg_and_die`): `die` is fatal termination with a diagnostic,
`ret` is an ordinary return to the caller. -/
inductive CRes (α : Type) where
  | die (msg : String)
  | ret (a : α)
deriving Repr, DecidableEq

/-- strchr-style search: true when the character occurs in the list. -/
def chrIn (c : Char) (s : CStr) : Bool := decide (c ∈ s)

/-- ASCII isalpha, as used by hush (locale shims are out of scope). -/
def c_isalpha (c : Int) : Bool :=
  (65 ≤ c ∧ c ≤ 90) ∨ (97 ≤ c ∧ c ≤ 122)

/-- ASCII isdigit on an int character code. -/
def c_isdigit (c : Int) : Bool := 48 ≤ c ∧ c ≤ 57

/-- ASCII isalnum on an int character code. -/
def c_isalnum (c : Int) : Bool := c_isalpha c ∨ c_isdigit c

def cc (ch : Char) : Int := Int.ofNat ch.toNat

/-! ## Variable table (struct variables in C; get/set/unset_local_var) -/

/-- Variable binding: name, value, export flag, read-only flag
(struct variables; the next pointer becomes list structure). -/
structure variables_s where
  name : CStr
  value : CStr
  flg_export : Int
  flg_read_only : Int
deriving Repr, DecidableEq

/-- shell_ver, the HUSH_VERSION sentinel that roots top_vars. -/
def shell_ver : variables_s :=
  { name := str "HUSH_VERSION", value := str "0.01",
    flg_export := 1, flg_read_only := 1 }

/-- Initial variable table: top_vars = &shell_ver. -/
def top_vars0 : List variables_s := [shell_ver]

/-- State that set/unset_local_var touch: the shell variable list, the
process environment (putenv/unsetenv entries of the form NAME=VALUE),
and the diagnostics printed so far (bb_error_msg). -/
structure VarSt where
  vars : List variables_s
  env : List CStr
  msgs : List String
deriving Repr, DecidableEq

def VarSt.init : VarSt := { vars := top_vars0, env := [], msgs := [] }

/-- get_local_var: linear search of the variable list by exact name. -/
def get_local_var (vars : List variables_s) (s : CStr) : Option CStr :=
  match vars with
  | [] => none
  | cur :: rest => if cur.name = s then some cur.value else get_local_var rest s

/-- Environment name of a NAME=VALUE entry (text before the first '='). -/
def envName (e : CStr) : CStr := e.takeWhile (· ≠ '=')

/-- putenv model: replace the entry with the same name, else append;
returns 0 (success; the OS environment is an external collaborator). -/
def c_putenv (env : List CStr) (s : CStr) : Int × List CStr :=
  if env.any (fun e => envName e = envName s) then
    (0, env.map (fun e => if envName e = envName s then s else e))
  else (0, env ++ [s])

/-- unsetenv model: drop all entries with the given name. -/
def c_unsetenv (env : List CStr) (name : CStr) : List CStr :=
  env.filter (fun e => envName e ≠ name)

/-- splitEq s = (name, value) at the first '='; none when s has no '='.
This mirrors `value = strchr(name, '='); *value++ = 0` in set_local_var. -/
def splitEq (s : CStr) : Option (CStr × CStr) :=
  if '=' ∈ s then some (s.takeWhile (· ≠ '='), (s.dropWhile (· ≠ '=')).tail)
  else none

/-- update of the first binding with the given name -/
def updateVar (vars : List variables_s) (name : CStr) (f : variables_s → variables_s) :
    List variables_s :=
  match vars with
  | [] => []
  | cur :: rest =>
    if cur.name = name then f cur :: rest else cur :: updateVar rest name f

/-- set_local_var: splits s on the first '=', rejects a missing or empty
value (-1), updates an existing binding (read-only ones reject a value
change; an equal value is a no-op that may still set the export flag),
and otherwise tries to append a new binding.  `mallocOk` is the
`cur = malloc(...)` null check; `strdup(name)` is modelled as succeeding,
upon which the source's `if (cur->name)` test frees the node and sets
result = -1, so the new-binding branch never inserts.  Returns the C
result and the updated state. -/
def set_local_var (s : CStr) (flg_export : Int) (st : VarSt)
    (mallocOk : Bool := true) : Int × VarSt :=
  match splitEq s with
  | none => (-1, st)
  | some (name, value) =>
    if value = [] then (-1, st)
    else
      match get_local_var st.vars name with
      | some curval =>
        -- existing binding: result and updated binding per the C branches
        let cur_export := ((st.vars.find? (fun v => v.name = name)).map
            (fun v => v.flg_export)).getD 0
        let cur_ro := ((st.vars.find? (fun v => v.name = name)).map
            (fun v => v.flg_read_only)).getD 0
        if curval = value then
          if flg_export > 0 ∧ cur_export = 0 then
            -- cur->flg_export = flg_export; result stays 0
            let vars' := updateVar st.vars name (fun v => { v with flg_export := flg_export })
            -- tail: result == 0 and cur->flg_export == 1 ⇒ putenv
            if flg_export = 1 then
              let (r, env') := c_putenv st.env s
              (r, { st with vars := vars', env := env' })
            else (0, { st with vars := vars' })
          else
            -- result++ (no-op, same value): tail turns result > 0 into 0
            (0, st)
        else if cur_ro ≠ 0 then
          (-1, { st with msgs := st.msgs ++ ["readonly variable"] })
        else
          let newexp := if flg_export > 0 ∨ cur_export > 1 then 1 else cur_export
          let vars' := updateVar st.vars name
            (fun v => { v with flg_export := newexp, value := value })
          if newexp = 1 then
            let (r, env') := c_putenv st.env s
            (r, { st with vars := vars', env := env' })
          else (0, { st with vars := vars' })
      | none =>
        -- new binding: malloc may fail (-1); otherwise strdup(name)
        -- succeeds, the inverted test `if (cur->name)` frees the node,
        -- and result = -1 in both cases.  Nothing is inserted.
        if ¬mallocOk then (-1, st) else (-1, st)

/-- unset_local_var: removes the first binding with the given name;
read-only bindings report a diagnostic and stay; exported ones are also
removed from the environment.  A null name and a missing name are no-ops. -/
def unset_local_var (name : Option CStr) (st : VarSt) : VarSt :=
  match name with
  | none => st
  | some n =>
    match st.vars.find? (fun v => v.name = n) with
    | none => st
    | some cur =>
      if cur.flg_read_only ≠ 0 then
        { st with msgs := st.msgs ++ ["readonly variable"] }
      else
        { st with
          vars := st.vars.eraseP (fun v => v.name = n),
          env := if cur.flg_export ≠ 0 then c_unsetenv st.env n else st.env }

/-- is_assignment: leading alpha, then alnum or underscore run, then '='. -/
def is_assignment (s : CStr) : Bool :=
  match s with
  | [] => false
  | c :: rest =>
    if ¬ c_isalpha (cc c) then false
    else
      let rest' := rest.dropWhile (fun d => c_isalnum (cc d) ∨ d = '_')
      match rest' with
      | '=' :: _ => true
      | _ => false

/-! ## lookup_param and insert_var_value -/

/-- getenv model on the environment list. -/
def c_getenv (env : List CStr) (name : CStr) : Option CStr :=
  (env.find? (fun e => envName e = name)).map (fun e => (e.dropWhile (· ≠ '=')).tail)

/-- lookup_param: environment first, then the local variable table. -/
def lookup_param (env : List CStr) (vars : List variables_s) (src : CStr) :
    Option CStr :=
  match c_getenv env src with
  | some p => some p
  | none => get_local_var vars src

/-- strchr on SPECIAL_VAR_SYMBOL: text before the first sentinel and the
text after it, or none when the list holds no sentinel. -/
def splitAtMark (l : CStr) : Option (CStr × CStr) :=
  if SPECIAL_VAR_SYMBOL ∈ l then
    some (l.takeWhile (· ≠ SPECIAL_VAR_SYMBOL), (l.dropWhile (· ≠ SPECIAL_VAR_SYMBOL)).tail)
  else none

/-- Loop of insert_var_value: scans for SPECIAL_VAR_SYMBOL pairs,
substituting each delimited name via lookup_param.  `none` models the
null-pointer crash when an opening sentinel has no closing mate
(`p = strchr(inp, SPECIAL_VAR_SYMBOL); *p = '\0';` with p == NULL).
Returns the unscanned tail, the accumulated result and the done flag. -/
def ivv_go (look : CStr → Option CStr) (fuel : Nat) (inp res : CStr)
    (dn : Bool) : Option (CStr × CStr × Bool) :=
  match fuel with
  | 0 => none
  | fuel + 1 =>
    match splitAtMark inp with
    | none => some (inp, res, dn)
    | some (pre, rest1) =>
      match splitAtMark rest1 with
      | none => none
      | some (name, rest2) =>
        let res' := match look name with
          | some p1 => res ++ pre ++ p1
          | none => res ++ pre
        ivv_go look fuel rest2 res' true

/-- insert_var_value: substitutes every sentinel-delimited variable, and
when at least one substitution pass ran, appends the tail and replaces
every newline of the result by a space; an input without sentinels is
returned unchanged. -/
def insert_var_value (look : CStr → Option CStr) (inp : CStr) : Option CStr :=
  match ivv_go look (inp.length + 1) inp [] false with
  | none => none
  | some (tl, res, dn) =>
    if dn then
      some ((res ++ tl).map (fun c => if c = '\n' then ' ' else c))
    else some inp

/-! ## Token buffer (o_string) -/

/-- Token buffer: the data bytes, the double-quote state and the
"explicit non-null word" flag.  maxlen bookkeeping lives only in the
allocation model below. -/
structure o_string where
  data : CStr
  quote : Bool
  nonnull : Bool
deriving Repr, DecidableEq

def NULL_O_STRING : o_string := { data := [], quote := false, nonnull := false }

/-- b_addchr with allocation assumed successful. -/
def b_addchr (o : o_string) (ch : Char) : o_string :=
  { o with data := o.data ++ [ch] }

/-- b_reset: empties the buffer and clears nonnull; quote state is kept. -/
def b_reset (o : o_string) : o_string :=
  { o with data := [], nonnull := false }

/-- b_addqchr: under double quotes, glob specials and backslash get a
protecting backslash before them. -/
def b_addqchr (o : o_string) (ch : Char) (quote : Bool) : o_string :=
  if quote ∧ chrIn ch (str "*?[\\") then b_addchr (b_addchr o '\\') ch
  else b_addchr o ch

/-- b_adduint: appends the decimal digits of an unsigned int. -/
def b_adduint (o : o_string) (i : Nat) : o_string :=
  { o with data := o.data ++ (Nat.repr i).data }

/-! ## Allocation model of the token buffer (b_check_space / b_addchr)

The C o_string owns a malloc'd buffer; these definitions keep the
maxlen/NULL-data bookkeeping so that the allocation-failure behaviour of
b_check_space is visible.  `allocOk` is the realloc success oracle. -/

structure o_string_alloc where
  data : Option CStr
  maxlen : Nat
  quote : Bool
  nonnull : Bool
deriving Repr, DecidableEq

def B_CHUNK : Nat := 100

/-- b_check_space: grows the buffer when needed; on realloc failure the
old data is freed and the null buffer makes the result nonzero.  The
whole function only ever returns to its caller: it is in `CRes` to make
it comparable with the fatal paths elsewhere, and never produces `die`. -/
def b_check_space (o : o_string_alloc) (len : Nat) (allocOk : Bool) :
    CRes (o_string_alloc × Int) :=
  if (o.data.getD []).length + len > o.maxlen then
    let maxlen' := o.maxlen + max (2 * len) B_CHUNK
    if allocOk then
      .ret ({ o with maxlen := maxlen' }, 0)
    else
      .ret ({ o with maxlen := maxlen', data := none }, 1)
  else
    .ret (o, if o.data = none then 1 else 0)

/-- b_addchr on the allocation model: B_NOSPAC when b_check_space fails. -/
def b_addchr_alloc (o : o_string_alloc) (ch : Char) (allocOk : Bool) :
    CRes (o_string_alloc × Int) :=
  match b_check_space o 1 allocOk with
  | .die m => .die m
  | .ret (o', r) =>
    if r ≠ 0 then .ret (o', B_NOSPAC)
    else .ret ({ o' with data := some ((o'.data.getD []) ++ [ch]) }, 0)

/-! ## Glob machinery (glob_needed, globhack, xglob) -/

/-- Result of the POSIX glob(3) collaborator. -/
inductive GlobOut where
  | matched (paths : List CStr)
  | nomatch
  | nospace
  | aborted
deriving Repr, DecidableEq

/-- glob_needed: scans for an unquoted * [ ?; a backslash skips the next
character but the skipped character is still tested, and a trailing
backslash hits the terminating NUL in strchr's set and counts as needed
(the "XXX broken if the last character is backslash" case). -/
def glob_needed : CStr → Bool
  | [] => false
  | c :: rest =>
    if c = '\\' then
      match rest with
      | [] => true
      | d :: rest' => if chrIn d (str "*[?") then true else glob_needed rest'
    else if chrIn c (str "*[?") then true else glob_needed rest

/-- Backslash removal of globhack's copy loop; a trailing backslash makes
the copy write the terminating NUL, ending the string there. -/
def ghack_unescape : CStr → CStr
  | [] => []
  | c :: rest =>
    if c = '\\' then
      match rest with
      | [] => []
      | d :: rest' => d :: ghack_unescape rest'
    else c :: ghack_unescape rest

/-- globhack: pushes src, with backslash removal, as one extra path;
without GLOB_APPEND the output list is reset first.  `allocOk` is the
malloc/realloc success oracle; failure returns GLOB_NOSPACE. -/
def globhack (src : CStr) (appendFlag : Bool) (pglob : List CStr)
    (allocOk : Bool := true) : Int × List CStr :=
  if ¬allocOk then (GLOB_NOSPACE, pglob)
  else ((0 : Int), (if appendFlag then pglob else []) ++ [ghack_unescape src])

/-- xglob: empty explicitly-null words and glob-free words go through
globhack; words needing glob consult the glob(3) collaborator, falling
back to globhack on no match.  GLOB_NOSPACE is fatal. -/
def xglob (globSys : CStr → GlobOut) (dest : o_string) (appendFlag : Bool)
    (pglob : List CStr) (allocOk : Bool := true) : CRes (Int × List CStr) :=
  let hack := globhack dest.data appendFlag pglob allocOk
  let gr_pg : Option (Int × List CStr) :=
    if dest.data = [] then
      if dest.nonnull then some hack else none
    else if glob_needed dest.data then
      match globSys dest.data with
      | .matched paths => some (0, (if appendFlag then pglob else []) ++ paths)
      | .nomatch => some hack
      | .nospace => some (GLOB_NOSPACE, pglob)
      | .aborted => some (2, pglob)
    else some hack
  match gr_pg with
  | none => .ret (0, pglob)   -- null word, not explicit: nothing emitted
  | some (gr, pg) =>
    if gr = GLOB_NOSPACE then .die "out of memory during glob"
    else .ret (gr, pg)


/-! ## Parser data structures (reserved_style, pipe_style, pipe tree) -/

def RES_NONE : Nat := 0
def RES_IF : Nat := 1
def RES_THEN : Nat := 2
def RES_ELIF : Nat := 3
def RES_ELSE : Nat := 4
def RES_FI : Nat := 5
def RES_FOR : Nat := 6
def RES_WHILE : Nat := 7
def RES_UNTIL : Nat := 8
def RES_DO : Nat := 9
def RES_DONE : Nat := 10
def RES_XXXX : Nat := 11
def RES_IN : Nat := 12
def RES_SNTX : Nat := 13

def FLAG_END : Nat := 1 <<< RES_NONE
def FLAG_IF : Nat := 1 <<< RES_IF
def FLAG_THEN : Nat := 1 <<< RES_THEN
def FLAG_ELIF : Nat := 1 <<< RES_ELIF
def FLAG_ELSE : Nat := 1 <<< RES_ELSE
def FLAG_FI : Nat := 1 <<< RES_FI
def FLAG_FOR : Nat := 1 <<< RES_FOR
def FLAG_WHILE : Nat := 1 <<< RES_WHILE
def FLAG_UNTIL : Nat := 1 <<< RES_UNTIL
def FLAG_DO : Nat := 1 <<< RES_DO
def FLAG_DONE : Nat := 1 <<< RES_DONE
def FLAG_IN : Nat := 1 <<< RES_IN
def FLAG_START : Nat := 1 <<< RES_XXXX

def FLAG_EXIT_FROM_LOOP : Nat := 1
def FLAG_PARSE_SEMICOLON : Nat := 1 <<< 1
def FLAG_REPARSING : Nat := 1 <<< 2

def PIPE_SEQ : Nat := 1
def PIPE_AND : Nat := 2
def PIPE_OR : Nat := 3
def PIPE_BG : Nat := 4

/-- redir_type codes. -/
def REDIRECT_INPUT : Nat := 1
def REDIRECT_OVERWRITE : Nat := 2
def REDIRECT_APPEND : Nat := 3
def REDIRECT_HEREIS : Nat := 4
def REDIRECT_IO : Nat := 5

/-- default_fd column of redir_table. -/
def redir_default_fd (style : Nat) : Int :=
  if style = REDIRECT_INPUT then 0
  else if style = REDIRECT_OVERWRITE then 1
  else if style = REDIRECT_APPEND then 1
  else if style = REDIRECT_HEREIS then -1
  else if style = REDIRECT_IO then 1
  else 0

/-- Redirect node: type, target fd, duplicated-from fd (-1 none, -3 close),
and the glob-expanded word (gl_pathv of the glob_t). -/
structure redir_struct where
  rtype : Nat
  fd : Int
  dup : Int
  word : List CStr
deriving Repr, DecidableEq

mutual
/-- Command node (struct child_prog): argument vector or nested group,
subshell flag, redirect list, count of variable sentinels, the parse-mode
type copied from the context, and the pid assigned at fork time. -/
inductive child_prog : Type where
  | mk (argv : Option (List CStr)) (group : Option (List pipe))
       (subshell : Bool) (redirects : List redir_struct)
       (sp : Nat) (ctype : Nat) (pid : Nat)

/-- Pipeline node (struct pipe): committed commands, follow-up operator
and reserved-word role.  The uncommitted child of the parser lives in the
context, not here; the next pointer becomes list structure. -/
inductive pipe : Type where
  | mk (progs : List child_prog) (followup : Nat) (r_mode : Nat)
end

def child_prog.argv : child_prog → Option (List CStr) | .mk a _ _ _ _ _ _ => a
def child_prog.group : child_prog → Option (List pipe) | .mk _ g _ _ _ _ _ => g
def child_prog.subshell : child_prog → Bool | .mk _ _ s _ _ _ _ => s
def child_prog.redirects : child_prog → List redir_struct | .mk _ _ _ r _ _ _ => r
def child_prog.sp : child_prog → Nat | .mk _ _ _ _ sp _ _ => sp
def child_prog.ctype : child_prog → Nat | .mk _ _ _ _ _ t _ => t
def child_prog.pid : child_prog → Nat | .mk _ _ _ _ _ _ p => p

def pipe.progs : pipe → List child_prog | .mk p _ _ => p
def pipe.followup : pipe → Nat | .mk _ f _ => f
def pipe.r_mode : pipe → Nat | .mk _ _ r => r

def child_prog.withArgv (c : child_prog) (a : Option (List CStr)) : child_prog :=
  match c with | .mk _ g s r sp t p => .mk a g s r sp t p
def child_prog.withGroup (c : child_prog) (g : Option (List pipe)) : child_prog :=
  match c with | .mk a _ s r sp t p => .mk a g s r sp t p
def child_prog.withSubshell (c : child_prog) (s : Bool) : child_prog :=
  match c with | .mk a g _ r sp t p => .mk a g s r sp t p
def child_prog.withRedirects (c : child_prog) (r : List redir_struct) : child_prog :=
  match c with | .mk a g s _ sp t p => .mk a g s r sp t p
def child_prog.withSp (c : child_prog) (sp : Nat) : child_prog :=
  match c with | .mk a g s r _ t p => .mk a g s r sp t p
def child_prog.withPid (c : child_prog) (p : Nat) : child_prog :=
  match c with | .mk a g s r sp t _ => .mk a g s r sp t p

/-- a fresh zeroed command slot, as done_command's memset leaves it -/
def empty_child (ctype : Nat) : child_prog := .mk none none false [] 0 ctype 0

/-! ## Parser context (struct p_context) -/

/-- One context frame: the open (uncommitted) command, the committed
commands of the open pipe, the committed pipes of this list, the pending
redirect flag (true when the last redirect of the open command awaits its
filename word), the reserved-word state w, the allowed-successor mask
old_flag, and the parse-mode type. -/
structure pframe where
  child : child_prog
  cur_progs : List child_prog
  done_pipes : List pipe
  pending_redirect : Bool
  w : Nat
  old_flag : Nat
  ptype : Nat

/-- Parser context: the active frame and the stack of saved outer frames
(ctx->stack chained by physical struct copies). -/
structure p_context where
  frame : pframe
  stack : List pframe

/-- initialize_context: fresh everything; ctx->type is NOT initialized by
the C function, so the caller supplies what the struct already held
(possibly stack garbage for locally declared contexts). -/
def initialize_context (ptype : Nat) : p_context :=
  { frame := { child := empty_child ptype, cur_progs := [], done_pipes := [],
               pending_redirect := false, w := RES_NONE, old_flag := 0,
               ptype := ptype },
    stack := [] }

/-- done_command: commits the open command into the open pipe unless it is
still null (no group, no argv, no redirects), and opens a fresh child. -/
def done_command (ctx : p_context) : p_context :=
  let f := ctx.frame
  if f.child.group.isNone ∧ f.child.argv.isNone ∧ f.child.redirects.isEmpty then ctx
  else { ctx with frame := { f with
            cur_progs := f.cur_progs ++ [f.child]
            child := empty_child f.ptype } }

/-- done_pipe: closes the open pipe with the given follow-up operator and
the current reserved-word state as its r_mode, then opens a fresh pipe
and a fresh child. -/
def done_pipe (ctx : p_context) (ptype : Nat) : p_context :=
  let ctx1 := done_command ctx
  let f := ctx1.frame
  { ctx1 with frame := { f with
      done_pipes := f.done_pipes ++ [.mk f.cur_progs ptype f.w]
      cur_progs := []
      child := empty_child f.ptype } }

/-- list_head of a context: the committed pipes followed by the open pipe
(which new_pipe left with zeroed followup and r_mode RES_NONE). -/
def p_context.list_head (ctx : p_context) : List pipe :=
  ctx.frame.done_pipes ++ [.mk ctx.frame.cur_progs 0 RES_NONE]

/-- Parser-global mutable state: diagnostics printed so far and the
count of command substitutions run (indexing the output oracles). -/
structure GSt where
  msgs : List String
  subs_ctr : Nat
deriving Repr, DecidableEq

/-- syntax(): print a syntax-error diagnostic. -/
def synerr (g : GSt) : GSt := { g with msgs := g.msgs ++ ["syntax error"] }

/-! ## Reserved-word state machine (reserved_word) -/

structure reserved_combo where
  literal : CStr
  code : Nat
  flag : Nat

def reserved_list : List reserved_combo :=
  [ ⟨str "if",    RES_IF,    FLAG_THEN ||| FLAG_START⟩,
    ⟨str "then",  RES_THEN,  FLAG_ELIF ||| FLAG_ELSE ||| FLAG_FI⟩,
    ⟨str "elif",  RES_ELIF,  FLAG_THEN⟩,
    ⟨str "else",  RES_ELSE,  FLAG_FI⟩,
    ⟨str "fi",    RES_FI,    FLAG_END⟩,
    ⟨str "for",   RES_FOR,   FLAG_IN ||| FLAG_START⟩,
    ⟨str "while", RES_WHILE, FLAG_DO ||| FLAG_START⟩,
    ⟨str "until", RES_UNTIL, FLAG_DO ||| FLAG_START⟩,
    ⟨str "in",    RES_IN,    FLAG_DO⟩,
    ⟨str "do",    RES_DO,    FLAG_DONE⟩,
    ⟨str "done",  RES_DONE,  FLAG_END⟩ ]

/-- reserved_word: checks the finished word against the reserved table.
Returns 0 (not reserved, nothing changed) or 1 (processed), with the
updated buffer, context and diagnostics; `none` models the null
dereference were an end word accepted with an empty context stack.
A compound-starting word found while a for-variable or `in` is expected,
and a non-starting word not permitted by the previous word's mask (or
with no previous reserved word at all), discard the word, print a
diagnostic and put the context in the permanent RES_SNTX state. -/
def reserved_word (dest : o_string) (ctx : p_context) (gst : GSt) :
    Option (Nat × o_string × p_context × GSt) :=
  match reserved_list.find? (fun r => r.literal = dest.data) with
  | none => some (0, dest, ctx, gst)
  | some r =>
    if r.flag &&& FLAG_START ≠ 0 then
      if ctx.frame.w = RES_IN ∨ ctx.frame.w = RES_FOR then
        some (1, b_reset dest,
          { ctx with frame := { ctx.frame with w := RES_SNTX } }, synerr gst)
      else
        -- *new = *ctx; initialize_context(ctx); ctx->stack = new
        -- (ctx->type is untouched by initialize_context)
        let pushed : p_context :=
          { frame := { (initialize_context ctx.frame.ptype).frame with
                        w := r.code, old_flag := r.flag },
            stack := ctx.frame :: ctx.stack }
        some (1, b_reset dest, pushed, gst)
    else if ctx.frame.w = RES_NONE ∨ ctx.frame.old_flag &&& (1 <<< r.code) = 0 then
      some (1, b_reset dest,
        { ctx with frame := { ctx.frame with w := RES_SNTX } }, synerr gst)
    else
      let ctx1 : p_context :=
        { ctx with frame := { ctx.frame with w := r.code, old_flag := r.flag } }
      if r.flag &&& FLAG_END ≠ 0 then
        let ctx2 := done_pipe ctx1 PIPE_SEQ
        match ctx2.stack with
        | [] => none
        | old :: rest =>
          let child' := (old.child.withGroup (some ctx2.list_head)).withSubshell false
          some (1, b_reset dest, { frame := { old with child := child' }, stack := rest }, gst)
      else some (1, b_reset dest, ctx1, gst)

/-! ## Input stream (struct in_str) -/

/-- Input stream: a string-backed cursor (isFile = false, where an
embedded NUL terminates, as in static_get) or a file/pipe-backed stream
(isFile = true, where only exhaustion is EOF). -/
structure in_str where
  isFile : Bool
  chars : CStr
deriving Repr, DecidableEq

/-- b_getch: none is EOF.  Reads past a string NUL are modelled as EOF. -/
def b_getch (i : in_str) : Option (Char × in_str) :=
  match i.chars with
  | [] => none
  | c :: rest =>
    if ¬i.isFile ∧ c = Char.ofNat 0 then none
    else some (c, { i with chars := rest })

/-- b_peek as an int: -1 is EOF (file streams); a string stream at its
end shows the terminating NUL, 0. -/
def b_peek (i : in_str) : Int :=
  match i.chars with
  | [] => if i.isFile then -1 else 0
  | c :: _ => cc c

/-- consume one character when possible (the `if (advance) b_getch` tail) -/
def adv1 (i : in_str) : in_str :=
  match b_getch i with
  | some (_, i') => i'
  | none => i

/-! ## Character classification (update_ifs_map) -/

/-- update_ifs_map: IFS characters are class 2, special punctuation class
1, the never-copied characters class 3, everything else class 0; a later
mapset overrides an earlier one, so IFS wins. -/
def update_ifs_map (ifs : CStr) (c : Char) : Nat :=
  if c ∈ ifs then 2
  else if c ∈ str "<>;&|(){}#" then 1
  else if c ∈ str "\\$'\"`" then 3
  else 0

/-- the mapset(";$&|", 0) override applied by parse_stream_outer when
semicolons are not special or on a reparse -/
def mapset_flow (m : Char → Nat) (c : Char) : Nat :=
  if c ∈ str ";$&|" then 0 else m c

/-! ## Oracles and read-only parser environment -/

/-- Read-only environment of a parse: the classification map, IFS, the
positional parameters, process identity, job/exit state, and the oracles
for glob(3) and for command-substitution children (stdout text and exit
status of the n-th substitution). -/
structure PEnv where
  map : Char → Nat
  ifs : CStr
  global_argv : List CStr
  global_argc : Nat
  cpid : Nat
  last_bg_pid : Nat
  last_return_code : Int
  globSys : CStr → GlobOut
  subs_out : Nat → CStr
  subs_ret : Nat → Int
  uninit_type : Nat

/-- Combined mutable parser state. -/
structure PSt where
  dest : o_string
  ctx : p_context
  inp : in_str
  gst : GSt

def synerrSt (st : PSt) : PSt := { st with gst := synerr st.gst }

/-- Result of a fueled parser function. -/
inductive PRes (α : Type) where
  | die (msg : String)
  | nofuel
  | ret (a : α)
deriving DecidableEq

/-! ## Small scanning loops of parse_stream and handle_dollar -/

/-- the single-quote loop: copy verbatim until the closing quote;
none is EOF before the mate (syntax error). -/
def squote_loop (isFile : Bool) : CStr → o_string → (Bool × o_string × CStr)
  | [], dest => (false, dest, [])
  | c :: rest, dest =>
    if ¬isFile ∧ c = Char.ofNat 0 then (false, dest, c :: rest)
    else if c = '\'' then (true, dest, rest)
    else squote_loop isFile rest (b_addchr dest c)

/-- the comment loop: peek-and-consume until EOF or a newline, which is
left unconsumed. -/
def skip_to_eol (isFile : Bool) : CStr → CStr
  | [] => []
  | c :: rest =>
    if ¬isFile ∧ c = Char.ofNat 0 then c :: rest
    else if c = '\n' then c :: rest
    else skip_to_eol isFile rest

/-- the name loop of handle_dollar: consume alnum and underscore. -/
def collect_name : CStr → o_string → (o_string × CStr)
  | [], dest => (dest, [])
  | c :: rest, dest =>
    if c_isalnum (cc c) ∨ c = '_' then collect_name rest (b_addchr dest c)
    else (dest, c :: rest)

/-- the brace loop of handle_dollar for a dollar-brace name: consume up to
the closing brace; none is EOF first (syntax error). -/
def brace_loop (isFile : Bool) : CStr → o_string → (Bool × o_string × CStr)
  | [], dest => (false, dest, [])
  | c :: rest, dest =>
    if ¬isFile ∧ c = Char.ofNat 0 then (false, dest, c :: rest)
    else if c = '}' then (true, dest, rest)
    else brace_loop isFile rest (b_addchr dest c)

/-- the digit loop of redirect_dup_num. -/
def rdn_digits : CStr → Nat → Bool → (Nat × Bool × CStr)
  | [], d, ok => (d, ok, [])
  | c :: rest, d, ok =>
    if c_isdigit (cc c) then rdn_digits rest (d * 10 + (c.toNat - 48)) true
    else (d, ok, c :: rest)

/-- redirect_dup_num: peeks ahead for an ampersand-number fd-duplication
suffix.  -1 none, -3 the close-me dash, -2 a syntax error (ampersand with
no number), otherwise the number; consumed characters are returned. -/
def redirect_dup_num (inp : in_str) (gst : GSt) : Int × in_str × GSt :=
  if b_peek inp ≠ cc '&' then (-1, inp, gst)
  else
    let inp1 := adv1 inp
    if b_peek inp1 = cc '-' then (-3, adv1 inp1, gst)
    else
      let (d, ok, rest) := rdn_digits inp1.chars 0 false
      if ok then (Int.ofNat d, { inp1 with chars := rest }, gst)
      else (-2, { inp1 with chars := rest },
            { gst with msgs := gst.msgs ++ ["ambiguous redirect"] })

/-- redirect_opt_num: a fully numeric token buffer is consumed (reset) and
yields the explicit fd; anything else yields -1 with the buffer intact. -/
def redirect_opt_num (o : o_string) : Int × o_string :=
  if o.data = [] then (-1, o)
  else if o.data.all (fun c => c_isdigit (cc c)) then
    (Int.ofNat (o.data.foldl (fun n c => n * 10 + (c.toNat - 48)) 0), b_reset o)
  else (-1, o)

/-- setup_redirect: appends a redirect node to the open command, resolving
a possible ampersand-duplication suffix from the input; without one, the
new node becomes the pending redirect whose filename the next word will
fill in.  Returns 1 on the ambiguous-redirect syntax error. -/
def setup_redirect (ctx : p_context) (fd : Int) (style : Nat) (inp : in_str)
    (gst : GSt) : Int × p_context × in_str × GSt :=
  let (d, inp', gst') := redirect_dup_num inp gst
  let redir : redir_struct :=
    { rtype := style, fd := if fd = -1 then redir_default_fd style else fd,
      dup := d, word := [] }
  let child' := ctx.frame.child.withRedirects (ctx.frame.child.redirects ++ [redir])
  if d = -2 then
    (1, { ctx with frame := { ctx.frame with child := child' } }, inp', gst')
  else if d ≠ -1 then
    (0, { ctx with frame := { ctx.frame with child := child' } }, inp', gst')
  else
    (0, { ctx with frame := { ctx.frame with
            child := child'
            pending_redirect := true } }, inp', gst')

/-- ctx->child->sp++ -/
def sp_inc (ctx : p_context) : p_context :=
  { ctx with frame := { ctx.frame with
      child := ctx.frame.child.withSp (ctx.frame.child.sp + 1) } }

/-! ## done_word -/

mutual
/-- done_word, second half: xglob-expand the finished word into the
pending redirect's filename (checking it globbed to exactly one path) or
append it to the command's argument vector, then apply the for-variable
closing rule (an immediately recursive done_word on the reset buffer and
a done_pipe). -/
def done_word_glob (env : PEnv) : Nat → o_string → p_context → GSt →
    PRes (Int × o_string × p_context × GSt)
  | 0, _, _, _ => .nofuel
  | fuel + 1, dest, ctx, gst =>
    if ctx.frame.pending_redirect then
      let redirs := ctx.frame.child.redirects
      let target := ((redirs.getLast?).map redir_struct.word).getD []
      match xglob env.globSys dest false target with
      | .die m => .die m
      | .ret (gr, pathv) =>
        if gr ≠ 0 then .ret (1, dest, ctx, gst)
        else
          let dest' := b_reset dest
          let redirs' := redirs.dropLast ++
            (match redirs.getLast? with
             | some r => [{ r with word := pathv }]
             | none => [])
          let ctx1 : p_context := { ctx with frame := { ctx.frame with
            child := ctx.frame.child.withRedirects redirs'
            pending_redirect := false } }
          if pathv.length ≠ 1 then
            .ret (1, dest', ctx1,
              { gst with msgs := gst.msgs ++ ["ambiguous redirect"] })
          else if ctx1.frame.w = RES_FOR then
            match done_word env fuel dest' ctx1 gst with
            | .die m => .die m
            | .nofuel => .nofuel
            | .ret (_, dest2, ctx2, gst2) =>
              .ret (0, dest2, done_pipe ctx2 PIPE_SEQ, gst2)
          else .ret (0, dest', ctx1, gst)
    else
      match xglob env.globSys dest ctx.frame.child.argv.isSome
              (ctx.frame.child.argv.getD []) with
      | .die m => .die m
      | .ret (gr, pathv) =>
        if gr ≠ 0 then .ret (1, dest, ctx, gst)
        else
          let dest' := b_reset dest
          let ctx1 : p_context := { ctx with frame := { ctx.frame with
            child := ctx.frame.child.withArgv (some pathv) } }
          if ctx1.frame.w = RES_FOR then
            match done_word env fuel dest' ctx1 gst with
            | .die m => .die m
            | .nofuel => .nofuel
            | .ret (_, dest2, ctx2, gst2) =>
              .ret (0, dest2, done_pipe ctx2 PIPE_SEQ, gst2)
          else .ret (0, dest', ctx1, gst)

  termination_by structural fuel => fuel
/-- done_word: a true-null word is ignored; otherwise the word is checked
for reserved-ness (only as a first word in semicolon mode, with no
pending redirect), groups and arglists must not mix, and the word is
expanded and committed by done_word_glob. -/
def done_word (env : PEnv) : Nat → o_string → p_context → GSt →
    PRes (Int × o_string × p_context × GSt)
  | 0, _, _, _ => .nofuel
  | fuel + 1, dest, ctx, gst =>
    if dest.data = [] ∧ ¬dest.nonnull then .ret (0, dest, ctx, gst)
    else if ctx.frame.pending_redirect then
      done_word_glob env fuel dest ctx gst
    else if ctx.frame.child.group.isSome then
      .ret (1, dest, ctx, synerr gst)
    else if ctx.frame.child.argv.isNone ∧
        ctx.frame.ptype &&& FLAG_PARSE_SEMICOLON ≠ 0 then
      match reserved_word dest ctx gst with
      | none => .die "null context stack"
      | some (rw, dest', ctx', gst') =>
        if rw ≠ 0 then
          .ret (if ctx'.frame.w = RES_SNTX then 1 else 0, dest', ctx', gst')
        else done_word_glob env fuel dest' ctx' gst'
    else done_word_glob env fuel dest ctx gst
  termination_by structural fuel => fuel
end

/-! ## parse_stream and its satellites -/

/-- Outcome of one iteration of the parse_stream character loop: an early
return (with the atEof flag marking the fall-through end-of-input exit)
or a continue. -/
inductive StepOut where
  | brk (r : Int) (atEof : Bool) (st : PSt)
  | cont (st : PSt)

mutual
/-- One iteration of the parse_stream loop: read a character, classify
it, and dispatch.  The EOF exit returns -1 exactly when a nonzero
terminator is still pending. -/
def ps_step (env : PEnv) : Nat → Int → PSt → PRes StepOut
  | 0, _, _ => .nofuel
  | fuel + 1, end_trigger, st =>
    match b_getch st.inp with
    | none => .ret (.brk (if end_trigger ≠ 0 then -1 else 0) true st)
    | some (ch, inp1) =>
      let st1 : PSt := { st with inp := inp1 }
      let m := env.map ch
      let next : Int := if ch = '\n' then 0 else b_peek inp1
      if m = 0 ∨ ((m = 1 ∨ m = 2) ∧ st1.dest.quote) then
        .ret (.cont { st1 with dest := b_addqchr st1.dest ch st1.dest.quote })
      else if m = 2 then
        match done_word env fuel st1.dest st1.ctx st1.gst with
        | .die msg => .die msg
        | .nofuel => .nofuel
        | .ret (dw, dest', ctx', gst') =>
          if dw ≠ 0 then
            .ret (.brk 1 false { st1 with dest := dest', ctx := ctx', gst := gst' })
          else
            let ctx2 := if end_trigger ≠ 0 ∧ ch = '\n' then done_pipe ctx' PIPE_SEQ else ctx'
            let st2 : PSt := { st1 with dest := dest', ctx := ctx2, gst := gst' }
            if cc ch = end_trigger ∧ ¬st2.dest.quote ∧ st2.ctx.frame.w = RES_NONE then
              .ret (.brk 0 false st2)
            else .ret (.cont st2)
      else if cc ch = end_trigger ∧ ¬st1.dest.quote ∧ st1.ctx.frame.w = RES_NONE then
        .ret (.brk 0 false st1)
      else if ch = '#' then
        if st1.dest.data = [] ∧ ¬st1.dest.quote then
          .ret (.cont { st1 with inp :=
            ({ st1.inp with chars := skip_to_eol st1.inp.isFile st1.inp.chars }) })
        else
          .ret (.cont { st1 with dest := b_addqchr st1.dest ch st1.dest.quote })
      else if ch = '\\' then
        if next = -1 then .ret (.brk 1 false (synerrSt st1))
        else
          match b_getch st1.inp with
          | none =>
            -- a string stream at its NUL: static_get yields EOF, whose
            -- int -1 is stored by b_addqchr as the byte 0xFF
            .ret (.cont { st1 with dest :=
              (b_addqchr (b_addqchr st1.dest '\\' st1.dest.quote)
                (Char.ofNat 255) st1.dest.quote) })
          | some (c2, inp2) =>
            .ret (.cont { st1 with inp := inp2, dest :=
              (b_addqchr (b_addqchr st1.dest '\\' st1.dest.quote) c2 st1.dest.quote) })
      else if ch = '$' then
        match handle_dollar env fuel st1 with
        | .die msg => .die msg
        | .nofuel => .nofuel
        | .ret (r, st2) =>
          if r ≠ 0 then .ret (.brk 1 false st2) else .ret (.cont st2)
      else if ch = '\'' then
        let dest1 : o_string := { st1.dest with nonnull := true }
        match squote_loop st1.inp.isFile st1.inp.chars dest1 with
        | (false, dest2, chars') =>
          .ret (.brk 1 false
            (synerrSt { st1 with dest := dest2, inp := { st1.inp with chars := chars' } }))
        | (true, dest2, chars') =>
          .ret (.cont { st1 with dest := dest2, inp := { st1.inp with chars := chars' } })
      else if ch = '"' then
        .ret (.cont { st1 with dest :=
          ({ st1.dest with nonnull := true, quote := ¬st1.dest.quote }) })
      else if ch = '`' then
        match process_command_subs env fuel (cc '`') st1 with
        | .die msg => .die msg
        | .nofuel => .nofuel
        | .ret (_, st2) => .ret (.cont st2)
      else if ch = '>' then
        let (redir_fd, dest1) := redirect_opt_num st1.dest
        match done_word env fuel dest1 st1.ctx st1.gst with
        | .die msg => .die msg
        | .nofuel => .nofuel
        | .ret (_, dest2, ctx2, gst2) =>
          if next = cc '(' then
            .ret (.brk 1 false (synerrSt { st1 with dest := dest2, ctx := ctx2, gst := gst2 }))
          else
            let style := if next = cc '>' then REDIRECT_APPEND else REDIRECT_OVERWRITE
            let inp2 := if next = cc '>' then adv1 st1.inp else st1.inp
            let (_, ctx3, inp3, gst3) := setup_redirect ctx2 redir_fd style inp2 gst2
            .ret (.cont { st1 with dest := dest2, ctx := ctx3, inp := inp3, gst := gst3 })
      else if ch = '<' then
        let (redir_fd, dest1) := redirect_opt_num st1.dest
        match done_word env fuel dest1 st1.ctx st1.gst with
        | .die msg => .die msg
        | .nofuel => .nofuel
        | .ret (_, dest2, ctx2, gst2) =>
          if next = cc '(' then
            .ret (.brk 1 false (synerrSt { st1 with dest := dest2, ctx := ctx2, gst := gst2 }))
          else
            let style := if next = cc '<' then REDIRECT_HEREIS
              else if next = cc '>' then REDIRECT_IO else REDIRECT_INPUT
            let inp2 := if next = cc '<' ∨ next = cc '>' then adv1 st1.inp else st1.inp
            let (_, ctx3, inp3, gst3) := setup_redirect ctx2 redir_fd style inp2 gst2
            .ret (.cont { st1 with dest := dest2, ctx := ctx3, inp := inp3, gst := gst3 })
      else if ch = ';' then
        match done_word env fuel st1.dest st1.ctx st1.gst with
        | .die msg => .die msg
        | .nofuel => .nofuel
        | .ret (_, dest', ctx', gst') =>
          .ret (.cont { st1 with dest := dest', ctx := done_pipe ctx' PIPE_SEQ, gst := gst' })
      else if ch = '&' then
        match done_word env fuel st1.dest st1.ctx st1.gst with
        | .die msg => .die msg
        | .nofuel => .nofuel
        | .ret (_, dest', ctx', gst') =>
          if next = cc '&' then
            .ret (.cont { st1 with
              dest := dest'
              ctx := done_pipe ctx' PIPE_AND
              gst := gst'
              inp := adv1 st1.inp })
          else
            .ret (.cont { st1 with dest := dest', ctx := done_pipe ctx' PIPE_BG, gst := gst' })
      else if ch = '|' then
        match done_word env fuel st1.dest st1.ctx st1.gst with
        | .die msg => .die msg
        | .nofuel => .nofuel
        | .ret (_, dest', ctx', gst') =>
          if next = cc '|' then
            .ret (.cont { st1 with
              dest := dest'
              ctx := done_pipe ctx' PIPE_OR
              gst := gst'
              inp := adv1 st1.inp })
          else
            .ret (.cont { st1 with dest := dest', ctx := done_command ctx', gst := gst' })
      else if ch = '(' ∨ ch = '{' then
        match parse_group env fuel ch st1 with
        | .die msg => .die msg
        | .nofuel => .nofuel
        | .ret (r, st2) =>
          if r ≠ 0 then .ret (.brk 1 false st2) else .ret (.cont st2)
      else if ch = ')' ∨ ch = '}' then
        .ret (.brk 1 false (synerrSt st1))
      else
        .ret (.brk 1 false (synerrSt st1))

  termination_by structural fuel => fuel
/-- parse_stream: the character loop; 0 is a clean stop at the unquoted
terminator (or end of input with terminator NUL), 1 a syntax error, -1
the end of input with a nonzero terminator still pending.  The Bool
records whether the fall-through EOF exit was taken. -/
def parse_stream (env : PEnv) : Nat → Int → PSt → PRes (Int × Bool × PSt)
  | 0, _, _ => .nofuel
  | fuel + 1, end_trigger, st =>
    match ps_step env fuel end_trigger st with
    | .die msg => .die msg
    | .nofuel => .nofuel
    | .ret (.brk r atEof st') => .ret (r, atEof, st')
    | .ret (.cont st') => parse_stream env fuel end_trigger st'

  termination_by structural fuel => fuel
/-- handle_dollar: variable and substitution forms after a dollar. -/
def handle_dollar (env : PEnv) : Nat → PSt → PRes (Int × PSt)
  | 0, _ => .nofuel
  | fuel + 1, st =>
    let ch : Int := b_peek st.inp
    if c_isalpha ch then
      let dest1 := b_addchr st.dest SPECIAL_VAR_SYMBOL
      let (dest2, chars') := collect_name st.inp.chars dest1
      .ret (0, { st with
        dest := b_addchr dest2 SPECIAL_VAR_SYMBOL
        ctx := sp_inc st.ctx
        inp := { st.inp with chars := chars' } })
    else if c_isdigit ch then
      let i := (ch - 48).toNat
      if i < env.global_argc then
        match parse_string env fuel (env.global_argv.getD i []) st.dest st.ctx st.gst with
        | .die msg => .die msg
        | .nofuel => .nofuel
        | .ret (_, dest', ctx', gst') =>
          .ret (0, { st with dest := dest', ctx := ctx', gst := gst', inp := adv1 st.inp })
      else .ret (0, { st with inp := adv1 st.inp })
    else if ch = cc '$' then
      .ret (0, { st with dest := b_adduint st.dest env.cpid, inp := adv1 st.inp })
    else if ch = cc '!' then
      .ret (0, { st with
        dest := if env.last_bg_pid > 0 then b_adduint st.dest env.last_bg_pid else st.dest
        inp := adv1 st.inp })
    else if ch = cc '?' then
      .ret (0, { st with
        dest := b_adduint st.dest (env.last_return_code % 4294967296).toNat
        inp := adv1 st.inp })
    else if ch = cc '#' then
      .ret (0, { st with
        dest := b_adduint st.dest (if env.global_argc ≠ 0 then env.global_argc - 1 else 0)
        inp := adv1 st.inp })
    else if ch = cc '{' then
      let dest1 := b_addchr st.dest SPECIAL_VAR_SYMBOL
      let ctx1 := sp_inc st.ctx
      let inp1 := adv1 st.inp
      match brace_loop inp1.isFile inp1.chars dest1 with
      | (false, dest2, chars') =>
        .ret (1, synerrSt
          { st with dest := dest2, ctx := ctx1, inp := { inp1 with chars := chars' } })
      | (true, dest2, chars') =>
        .ret (0, { st with
          dest := b_addchr dest2 SPECIAL_VAR_SYMBOL
          ctx := ctx1
          inp := { inp1 with chars := chars' } })
    else if ch = cc '(' then
      match process_command_subs env fuel (cc ')') { st with inp := adv1 st.inp } with
      | .die msg => .die msg
      | .nofuel => .nofuel
      | .ret (_, st') => .ret (0, st')
    else if ch = cc '*' then
      match dollar_star env fuel 1 st with
      | .die msg => .die msg
      | .nofuel => .nofuel
      | .ret st' => .ret (0, st')
    else if ch = cc '@' ∨ ch = cc '-' ∨ ch = cc '_' then
      .ret (1, { st with gst :=
        { st.gst with msgs := st.gst.msgs ++ ["unhandled syntax"] } })
    else
      .ret (0, { st with dest := b_addqchr st.dest '$' st.dest.quote })

  termination_by structural fuel => fuel
/-- the positional-parameter loop of the dollar-star case: each parameter
is recursively reparsed, separated by the first IFS character; the star
itself is not consumed (the C case sets no advance flag). -/
def dollar_star (env : PEnv) : Nat → Nat → PSt → PRes PSt
  | 0, _, _ => .nofuel
  | fuel + 1, i, st =>
    if i < env.global_argc then
      match parse_string env fuel (env.global_argv.getD i []) st.dest st.ctx st.gst with
      | .die msg => .die msg
      | .nofuel => .nofuel
      | .ret (_, dest', ctx', gst') =>
        let st1 : PSt := { st with dest := dest', ctx := ctx', gst := gst' }
        if i + 1 < env.global_argc then
          match parse_string env fuel [env.ifs.headD (Char.ofNat 0)]
              st1.dest st1.ctx st1.gst with
          | .die msg => .die msg
          | .nofuel => .nofuel
          | .ret (_, d2, c2, g2) =>
            dollar_star env fuel (i + 1) { st1 with dest := d2, ctx := c2, gst := g2 }
        else dollar_star env fuel (i + 1) st1
    else .ret st

  termination_by structural fuel => fuel
/-- process_command_subs: parse the enclosed text into a fresh context,
close it off, run it in a forked child with stdout piped back (the
child's output and exit status are the indexed oracles), and re-parse the
captured output into the original destination.  The trailing newline is
not trimmed. -/
def process_command_subs (env : PEnv) : Nat → Int → PSt → PRes (Int × PSt)
  | 0, _, _ => .nofuel
  | fuel + 1, subst_end, st =>
    let inner := initialize_context env.uninit_type
    match parse_stream env fuel subst_end
        { dest := NULL_O_STRING, ctx := inner, inp := st.inp, gst := st.gst } with
    | .die msg => .die msg
    | .nofuel => .nofuel
    | .ret (retcode, _, stA) =>
      if retcode ≠ 0 then .ret (retcode, { st with inp := stA.inp, gst := stA.gst })
      else
        match done_word env fuel stA.dest stA.ctx stA.gst with
        | .die msg => .die msg
        | .nofuel => .nofuel
        | .ret (_, _, ctxB, gstB) =>
          -- done_pipe closes the inner tree; generate_stream_from_list
          -- forks a child to run it, and the parent reads its stdout
          let _ := (done_pipe ctxB PIPE_SEQ).list_head
          let n := gstB.subs_ctr
          let gstC : GSt := { gstB with subs_ctr := n + 1 }
          match parse_stream env fuel 0
              { dest := st.dest, ctx := st.ctx,
                inp := { isFile := true, chars := env.subs_out n }, gst := gstC } with
          | .die msg => .die msg
          | .nofuel => .nofuel
          | .ret (_, _, stD) =>
            .ret (env.subs_ret n,
              { st with dest := stD.dest, ctx := stD.ctx, inp := stA.inp, gst := stD.gst })

  termination_by structural fuel => fuel
/-- parse_group: a parenthesis or brace group; arglists and groups do not
mix; the body is parsed into a fresh subcontext whose finished tree
becomes the open command's group (subshell-marked for parentheses), and
the body's parse result is passed through. -/
def parse_group (env : PEnv) : Nat → Char → PSt → PRes (Int × PSt)
  | 0, _, _ => .nofuel
  | fuel + 1, ch, st =>
    if st.ctx.frame.child.argv.isSome then .ret (1, synerrSt st)
    else
      let endch : Int := if ch = '(' then cc ')' else cc '}'
      let ctx0 : p_context :=
        if ch = '(' then
          { st.ctx with frame := { st.ctx.frame with
              child := st.ctx.frame.child.withSubshell true } }
        else st.ctx
      let sub0 := initialize_context env.uninit_type
      match parse_stream env fuel endch
          { dest := st.dest, ctx := sub0, inp := st.inp, gst := st.gst } with
      | .die msg => .die msg
      | .nofuel => .nofuel
      | .ret (rcode, _, stA) =>
        match done_word env fuel stA.dest stA.ctx stA.gst with
        | .die msg => .die msg
        | .nofuel => .nofuel
        | .ret (_, destB, subB, gstB) =>
          let subC := done_pipe subB PIPE_SEQ
          let ctx2 : p_context := { ctx0 with frame := { ctx0.frame with
              child := ctx0.frame.child.withGroup (some subC.list_head) } }
          .ret (rcode, { st with dest := destB, ctx := ctx2, inp := stA.inp, gst := gstB })

  termination_by structural fuel => fuel
/-- parse_string: parse a borrowed string through a fresh string-backed
input stream with a NUL terminator. -/
def parse_string (env : PEnv) : Nat → CStr → o_string → p_context → GSt →
    PRes (Int × o_string × p_context × GSt)
  | 0, _, _, _, _ => .nofuel
  | fuel + 1, src, dest, ctx, gst =>
    match parse_stream env fuel 0
        { dest := dest, ctx := ctx, inp := { isFile := false, chars := src }, gst := gst } with
    | .die msg => .die msg
    | .nofuel => .nofuel
    | .ret (r, _, st') => .ret (r, st'.dest, st'.ctx, st'.gst)
  termination_by structural fuel => fuel
end

/-! ## Job control (insert_bg_job) -/

/-- Job-control state: the tracked background jobs with their ids, the
last job id and the pid recorded for the dollar-bang expansion. -/
structure JobSt where
  job_list : List (Nat × pipe)
  last_jobid : Nat
  last_bg_pid : Nat

/-- insert_bg_job: picks the job id by linear scan (one more than any id
at least as large), appends a copy of the pipe to the job list, and
records the pid of the job's first process as last_bg_pid.  The printed
job banner and the display text are omitted. -/
def insert_bg_job (pi : pipe) (js : JobSt) : JobSt :=
  let jobid := js.job_list.foldl (fun jid j => if j.1 ≥ jid then j.1 + 1 else jid) 1
  { job_list := js.job_list ++ [(jobid, pi)]
    last_jobid := jobid
    last_bg_pid := (pi.progs.headD (empty_child 0)).pid }

/-! ## Execution engine (run_pipe_real / run_list_real) -/

/-- Mutable shell state during execution: the variable table state (with
environment and diagnostics), the dollar-question code, and a log of the
argument vectors handed to forked children (pseudo_exec), with the fork
counter that indexes the pid oracle. -/
structure ShellSt where
  var : VarSt
  last_return_code : Int
  spawned : List (List CStr)
  spawn_ctr : Nat
deriving DecidableEq

/-- Execution-side collaborators: interactivity and standalone-applet
configuration, the nofork-applet table and runner, the builtin bodies,
the child-reaping wait (checkjobs), the re-parse of a command that still
holds variable sentinels, and the pids handed out by fork. -/
structure ExecEnv where
  interactive : Bool
  standalone : Bool
  applet_nofork : CStr → Bool
  run_applet : CStr → List CStr → ShellSt → Int × ShellSt
  run_builtin : CStr → List CStr → ShellSt → Int × ShellSt
  checkjobs : Option pipe → ShellSt → Int × ShellSt
  reparse : CStr → ShellSt → ShellSt
  fork_pid : Nat → Nat

/-- names of the built_in_command table, in table order; bg, fg and jobs
exist only in the interactive build. -/
def bltin_names (interactive : Bool) : List CStr :=
  (if interactive then [str "bg"] else []) ++
  [str "break", str "cd", str "continue", str "env", str "eval", str "exec",
   str "exit", str "export"] ++
  (if interactive then [str "fg", str "jobs"] else []) ++
  [str "pwd", str "read", str "return", str "set", str "shift", str "trap",
   str "ulimit", str "umask", str "unset", str ".", str "help"]

/-- the assignment loop of the pure-assignment command: each NAME=VALUE
word decides its export flag from an existing local binding, passes
through insert_var_value, and goes to set_local_var (errors ignored).
none models the crash on an unmatched substitution sentinel. -/
def assign_loop : List CStr → VarSt → Option VarSt
  | [], vst => some vst
  | a :: rest, vst =>
    let name := a.takeWhile (· ≠ '=')
    let export_me : Int := if (get_local_var vst.vars name).isSome then 1 else 0
    match insert_var_value (lookup_param vst.env vst.vars) a with
    | none => none
    | some p =>
      let (_, vst') := set_local_var p export_me vst
      assign_loop rest vst'

/-- the putenv loop over the leading assignments of a command with a
command word; returns the updated state and how many assignments held
substitution sentinels (each decrements child->sp). -/
def putenv_loop : List CStr → VarSt → Option (VarSt × Nat)
  | [], vst => some (vst, 0)
  | a :: rest, vst =>
    match insert_var_value (lookup_param vst.env vst.vars) a with
    | none => none
    | some p =>
      let (_, env') := c_putenv vst.env p
      match putenv_loop rest { vst with env := env' } with
      | none => none
      | some (vst', n) =>
        some (vst', n + (if SPECIAL_VAR_SYMBOL ∈ a then 1 else 0))

/-- make_string: joins the words, each passed through insert_var_value,
with single spaces and a trailing newline; none models the crash on an
empty vector (strlen of the never-allocated string) or an unmatched
sentinel. -/
def make_string (look : CStr → Option CStr) (inp : List CStr) : Option CStr :=
  match inp.mapM (insert_var_value look) with
  | none => none
  | some parts =>
    match parts with
    | [] => none
    | p0 :: rest => some ((rest.foldl (fun acc p => acc ++ [' '] ++ p) p0) ++ ['\n'])

/-- the fork loop at the end of run_pipe_real: every command of the pipe
is forked (pid from the oracle) and left to pseudo_exec; the pipe fds
wiring is collaborator work.  Returns the pipe with pids filled in. -/
def fork_progs (ev : ExecEnv) : List child_prog → ShellSt → List child_prog × ShellSt
  | [], st => ([], st)
  | c :: rest, st =>
    let pid := ev.fork_pid st.spawn_ctr
    let st1 : ShellSt := { st with
      spawned := st.spawned ++ [c.argv.getD []]
      spawn_ctr := st.spawn_ctr + 1 }
    let (rest', st2) := fork_progs ev rest st1
    ((c.withPid pid) :: rest', st2)

/-- the syntax pre-check loop at the start of run_list_real over the
reserved-word shape of a for statement. -/
def rlr_syntax_bad : List pipe → Bool
  | [] => false
  | p :: rest =>
    if (p.r_mode = RES_IN ∨ p.r_mode = RES_FOR) ∧ rest.isEmpty then true
    else match rest with
      | [] => false
      | q :: _ =>
        if (p.r_mode = RES_IN ∧ q.r_mode = RES_IN ∧
              ((q.progs.headD (empty_child 0)).argv).isSome) ∨
           (p.r_mode = RES_FOR ∧ q.r_mode ≠ RES_IN) then true
        else rlr_syntax_bad rest

/-- set argv[0] of the first command of the pipe at the given index (the
for-loop's variable rebinding). -/
def set_argv0 (pipes : List pipe) (idx : Nat) (v : CStr) : List pipe :=
  pipes.mapIdx (fun j p =>
    if j = idx then
      match p.progs with
      | [] => p
      | c :: cs => .mk ((c.withArgv (some (v :: (c.argv.getD []).tail))) :: cs)
          p.followup p.r_mode
    else p)

/-- split on single spaces dropping empty fields, as make_list_in's
space scan does -/
def split_sp (l : CStr) : List CStr :=
  (l.splitOn ' ').filter (· ≠ [])

/-- make_list_in: builds the name=value word list a for statement
iterates over: each in-word is substituted, split on spaces, and each
field is prefixed with the loop variable name and '='. -/
def make_list_in (look : CStr → Option CStr) (inp : List CStr) (name : CStr) :
    Option (List CStr) :=
  match inp.mapM (insert_var_value look) with
  | none => none
  | some ps => some (ps.foldr (fun p acc =>
      ((split_sp p).map (fun f => name ++ '=' :: f)) ++ acc) [])

/-- padding pipe used when an index lookup walks off the list (C would
read the trailing uncommitted, zeroed pipe) -/
def null_pipe : pipe := .mk [] 0 RES_NONE

mutual
/-- run_pipe_real: in-process handling of a single foreground command
(non-subshell group, pure assignment list, sentinel re-parse, builtin,
nofork applet), otherwise one fork per pipe member, wiring left to the
collaborators; -1 means the caller must wait for the children. -/
def run_pipe_real (ev : ExecEnv) : Nat → pipe → ShellSt → PRes (Int × pipe × ShellSt)
  | 0, _, _ => .nofuel
  | fuel + 1, pi, st =>
    let single_fg := pi.progs.length = 1 ∧ pi.followup ≠ PIPE_BG
    let child := pi.progs.headD (empty_child 0)
    if single_fg ∧ child.group.isSome ∧ child.subshell = false then
      -- setup_redirects / restore_redirects act on the process's fds
      match run_list_real ev fuel (child.group.getD []) st with
      | .die m => .die m
      | .nofuel => .nofuel
      | .ret (rcode, st2) => .ret (rcode, pi, st2)
    else
      if single_fg ∧ child.argv.isSome then
        let argv := child.argv.getD []
        let i := (argv.takeWhile is_assignment).length
        if i ≠ 0 ∧ argv.length = i then
          match assign_loop argv st.var with
          | none => .die "null pointer in insert_var_value"
          | some vst2 => .ret (EXIT_SUCCESS, pi, { st with var := vst2 })
        else
          match putenv_loop (argv.take i) st.var with
          | none => .die "null pointer in insert_var_value"
          | some (vst1, spdec) =>
            let st1 : ShellSt := { st with var := vst1 }
            if child.sp - spdec ≠ 0 then
              match make_string (lookup_param vst1.env vst1.vars) (argv.drop i) with
              | none => .die "null pointer in make_string"
              | some s =>
                let st2 := ev.reparse s st1
                .ret (st2.last_return_code, pi, st2)
            else
              let cmd := (argv.drop i).headD []
              if (bltin_names ev.interactive).any (fun b => b = cmd) then
                if cmd = str "exec" ∧ (argv.drop i).length = 1 then
                  .ret (EXIT_SUCCESS, pi, st1)   -- magic exec: only redirects
                else
                  match ev.run_builtin cmd (argv.drop i) st1 with
                  | (rcode, st2) => .ret (rcode, pi, st2)
              else if ev.standalone ∧ ev.applet_nofork cmd then
                match ev.run_applet cmd (argv.drop i) st1 with
                | (rcode, st2) => .ret (rcode, pi, st2)
              else
                match fork_progs ev pi.progs st1 with
                | (progs2, st2) => .ret (-1, .mk progs2 pi.followup pi.r_mode, st2)
      else
        match fork_progs ev pi.progs st with
        | (progs2, st2) => .ret (-1, .mk progs2 pi.followup pi.r_mode, st2)
  termination_by structural fuel => fuel

/-- run_list_real: the syntax pre-check on for/in shapes, then the
control-flow loop over the pipe list, with the C locals passed as
arguments: pipes, current index, loop-head index, flag_rep, rcode,
flag_skip, flag_restore, if_code, next_if_code, skip_more_in_this_rmode,
the for-value list and the saved for-variable name. -/
def run_list_real (ev : ExecEnv) : Nat → List pipe → ShellSt → PRes (Int × ShellSt)
  | 0, _, _ => .nofuel
  | fuel + 1, pipes, st =>
    if rlr_syntax_bad pipes then
      .ret (1, { st with var := { st.var with msgs := st.var.msgs ++ ["syntax error"] } })
    else
      rlr_loop ev fuel pipes 0 none false 0 true false 0 0 RES_XXXX none [] st
  termination_by structural fuel => fuel

/-- head of the run_list_real loop: loop-head bookkeeping, the skip run,
and the if/then/elif/else gating, then the for machinery. -/
def rlr_loop (ev : ExecEnv) : Nat → List pipe → Nat → Option Nat → Bool → Int →
    Bool → Bool → Int → Int → Nat → Option (List CStr) → CStr → ShellSt →
    PRes (Int × ShellSt)
  | 0, _, _, _, _, _, _, _, _, _, _, _, _, _ => .nofuel
  | fuel + 1, pipes, idx, rpipe, flag_rep, rcode, flag_skip, flag_restore,
    if_code, next_if_code, skip_more, vlist, save_name, st =>
    match pipes.drop idx with
    | [] => .ret (rcode, st)
    | pi0 :: after =>
      let isLoopHead := pi0.r_mode = RES_WHILE ∨ pi0.r_mode = RES_UNTIL ∨ pi0.r_mode = RES_FOR
      let flag_restore := if isLoopHead then false else flag_restore
      let flag_rep := if isLoopHead ∧ rpipe.isNone then false else flag_rep
      let rpipe := if isLoopHead ∧ rpipe.isNone then some idx else rpipe
      let rmode := pi0.r_mode
      if rmode = skip_more ∧ flag_skip then
        rlr_next ev fuel pipes idx rpipe flag_rep rcode
          (if pi0.followup = PIPE_SEQ then false else flag_skip) flag_restore
          if_code next_if_code skip_more vlist save_name st
      else
        let flag_skip := true
        let skip_more := RES_XXXX
        let if_code := if rmode = RES_THEN ∨ rmode = RES_ELSE then next_if_code else if_code
        if rmode = RES_THEN ∧ if_code ≠ 0 then
          rlr_next ev fuel pipes idx rpipe flag_rep rcode flag_skip flag_restore
            if_code next_if_code skip_more vlist save_name st
        else if rmode = RES_ELSE ∧ if_code = 0 then
          rlr_next ev fuel pipes idx rpipe flag_rep rcode flag_skip flag_restore
            if_code next_if_code skip_more vlist save_name st
        else if rmode = RES_ELIF ∧ if_code = 0 then .ret (rcode, st)
        else
          -- the for-value list is built on first sight of the for pipe
          if rmode = RES_FOR ∧ pi0.progs.length ≠ 0 then
            match vlist with
            | none =>
              match ((after.headD null_pipe).progs.headD (empty_child 0)).argv with
              | none =>
                -- no variable values after "in": skip the for
                rlr_next ev fuel pipes idx rpipe flag_rep rcode flag_skip flag_restore
                  if_code next_if_code skip_more none save_name st
              | some inwords =>
                let name0 := ((pi0.progs.headD (empty_child 0)).argv.getD []).headD []
                match make_list_in (lookup_param st.var.env st.var.vars) inwords name0 with
                | none => .die "null pointer in insert_var_value"
                | some l =>
                  rlr_vstep ev fuel pipes idx rpipe true rcode flag_skip flag_restore
                    if_code next_if_code skip_more (some l) name0 st
            | some _ =>
              rlr_vstep ev fuel pipes idx rpipe flag_rep rcode flag_skip flag_restore
                if_code next_if_code skip_more vlist save_name st
          else
            rlr_run ev fuel pipes idx rpipe flag_rep rcode flag_skip flag_restore
              if_code next_if_code skip_more vlist save_name st
  termination_by structural fuel => fuel

/-- the *list advance of a live for statement: when the value list is
spent the loop variable slot is restored and the for is left; otherwise
the next value is written into argv[0] of the for pipe. -/
def rlr_vstep (ev : ExecEnv) : Nat → List pipe → Nat → Option Nat → Bool → Int →
    Bool → Bool → Int → Int → Nat → Option (List CStr) → CStr → ShellSt →
    PRes (Int × ShellSt)
  | 0, _, _, _, _, _, _, _, _, _, _, _, _, _ => .nofuel
  | fuel + 1, pipes, idx, rpipe, flag_rep, rcode, flag_skip, flag_restore,
    if_code, next_if_code, skip_more, vlist, save_name, st =>
    match vlist with
    | some [] =>
      rlr_next ev fuel (set_argv0 pipes idx save_name) idx rpipe false rcode
        flag_skip flag_restore if_code next_if_code skip_more none save_name st
    | some (v :: vs) =>
      rlr_run ev fuel (set_argv0 pipes idx v) idx rpipe flag_rep rcode
        flag_skip flag_restore if_code next_if_code skip_more (some vs) save_name st
    | none =>
      rlr_run ev fuel pipes idx rpipe flag_rep rcode flag_skip flag_restore
        if_code next_if_code skip_more vlist save_name st
  termination_by structural fuel => fuel

/-- tail of one loop iteration: in/do/done gating, then the run of a due
pipe and the resolution of its exit status. -/
def rlr_run (ev : ExecEnv) : Nat → List pipe → Nat → Option Nat → Bool → Int →
    Bool → Bool → Int → Int → Nat → Option (List CStr) → CStr → ShellSt →
    PRes (Int × ShellSt)
  | 0, _, _, _, _, _, _, _, _, _, _, _, _, _ => .nofuel
  | fuel + 1, pipes, idx, rpipe, flag_rep, rcode, flag_skip, flag_restore,
    if_code, next_if_code, skip_more, vlist, save_name, st =>
    let pi := (pipes.drop idx).headD null_pipe
    let rmode := pi.r_mode
    if rmode = RES_IN then
      rlr_next ev fuel pipes idx rpipe flag_rep rcode flag_skip flag_restore
        if_code next_if_code skip_more vlist save_name st
    else if rmode = RES_DO ∧ ¬flag_rep then
      rlr_next ev fuel pipes idx rpipe flag_rep rcode flag_skip flag_restore
        if_code next_if_code skip_more vlist save_name st
    else
      let flag_restore := if rmode = RES_DONE ∧ flag_rep then true else flag_restore
      let rpipe := if rmode = RES_DONE ∧ ¬flag_rep then none else rpipe
      if pi.progs.length = 0 then
        rlr_next ev fuel pipes idx rpipe flag_rep rcode flag_skip flag_restore
          if_code next_if_code skip_more vlist save_name st
      else
        match run_pipe_real ev fuel pi st with
        | .die m => .die m
        | .nofuel => .nofuel
        | .ret (rc0, pi2, st1) =>
          match (if rc0 ≠ -1 then (rc0, st1)
                 else if pi2.followup = PIPE_BG then
                   -- insert_bg_job runs only under ENABLE_HUSH_INTERACTIVE;
                   -- job bookkeeping is separate state
                   (EXIT_SUCCESS, st1)
                 else ev.checkjobs (some pi2) st1) with
          | (rcode2, st2) =>
            let st3 : ShellSt := { st2 with last_return_code := rcode2 }
            match ev.checkjobs none st3 with
            | (_, st4) =>
              rlr_next ev fuel (pipes.set idx pi2) idx rpipe
                (if rmode = RES_WHILE then rcode2 = 0
                 else if rmode = RES_UNTIL then rcode2 ≠ 0 else flag_rep)
                rcode2 flag_skip flag_restore if_code
                (if rmode = RES_IF ∨ rmode = RES_ELIF then rcode2 else next_if_code)
                (if (rcode2 = EXIT_SUCCESS ∧ pi2.followup = PIPE_OR) ∨
                    (rcode2 ≠ EXIT_SUCCESS ∧ pi2.followup = PIPE_AND)
                 then rmode else RES_XXXX)
                vlist save_name st4
  termination_by structural fuel => fuel

/-- advance to the next pipe (or back to the loop head on restore) -/
def rlr_next (ev : ExecEnv) : Nat → List pipe → Nat → Option Nat → Bool → Int →
    Bool → Bool → Int → Int → Nat → Option (List CStr) → CStr → ShellSt →
    PRes (Int × ShellSt)
  | 0, _, _, _, _, _, _, _, _, _, _, _, _, _ => .nofuel
  | fuel + 1, pipes, idx, rpipe, flag_rep, rcode, flag_skip, flag_restore,
    if_code, next_if_code, skip_more, vlist, save_name, st =>
    let idx2 := if flag_restore then (match rpipe with | some j => j | none => pipes.length)
                else idx + 1
    rlr_loop ev fuel pipes idx2 rpipe flag_rep rcode flag_skip flag_restore
      if_code next_if_code skip_more vlist save_name st
  termination_by structural fuel => fuel
end

/-! ## Concrete collaborators for closed evaluations -/

/-- the default IFS of hush -/
def default_ifs : CStr := str " \t\n"

/-- Parser collaborators for a plain non-interactive parse: default-IFS
classification, one positional parameter (argv[0] = hush), shell pid 99,
no background job yet, last exit status 0, a glob(3) that never matches,
and command-substitution children that print nothing and succeed. -/
def penv0 : PEnv :=
  ⟨update_ifs_map default_ifs, default_ifs, [str "hush"], 1, 99, 0, 0,
   fun _ => GlobOut.nomatch, fun _ => [], fun _ => 0, 0⟩

/-- initial parser state over the given input characters, as
parse_stream_outer sets it up for a fresh FLAG_PARSE_SEMICOLON parse -/
def pstc (s : CStr) : PSt :=
  ⟨NULL_O_STRING, initialize_context FLAG_PARSE_SEMICOLON, ⟨false, s⟩, ⟨[], 0⟩⟩

def pst0 (s : String) : PSt := pstc (str s)

/-- Exec collaborators of the non-interactive, non-standalone build: no
nofork applets, inert builtin and reparse bodies, fork pids 100, 101, ...,
and a wait (checkjobs on a concrete pipe) that reports exit status 1
exactly for a pipeline whose first command is `false`. -/
def eenv0 : ExecEnv :=
  ⟨false, false, fun _ => false, fun _ _ st => (0, st), fun _ _ st => (0, st),
   fun po st => (match po with
     | some pi => if ((pi.progs.headD (empty_child 0)).argv.getD []).headD [] = str "false"
                  then 1 else 0
     | none => 0, st),
   fun _ st => st, fun n => 100 + n⟩

/-- the pipe list parse_stream produces from `false && echo yes || echo no`
(the three committed pipes, then the still-open trailing pipe) -/
def c2_parsed : List pipe :=
  [pipe.mk [child_prog.mk (some [str "false"]) none false [] 0 2 0] PIPE_AND RES_NONE,
   pipe.mk [child_prog.mk (some [str "echo", str "yes"]) none false [] 0 2 0] PIPE_OR RES_NONE,
   pipe.mk [child_prog.mk (some [str "echo", str "no"]) none false [] 0 2 0] PIPE_SEQ RES_NONE,
   pipe.mk [] 0 RES_NONE]

/-! ## Helper lemmas -/

/-- one continuing iteration of the parse_stream loop -/
theorem parse_stream_step (env : PEnv) (n : Nat) (t : Int) (st out : PSt)
    (h : ps_step env n t st = .ret (.cont out)) :
    parse_stream env (n + 1) t st = parse_stream env n t out := by
  simp only [parse_stream, h]

/-- a breaking iteration of the parse_stream loop -/
theorem parse_stream_done (env : PEnv) (n : Nat) (t : Int) (st st2 : PSt)
    (r : Int) (e : Bool)
    (h : ps_step env n t st = .ret (.brk r e st2)) :
    parse_stream env (n + 1) t st = .ret (r, e, st2) := by
  simp only [parse_stream, h]


/-- ghack_unescape (globhack's copy loop) is the identity on
backslash-free text. -/
theorem ghack_unescape_id (s : CStr) (h : '\\' ∉ s) :
    ghack_unescape s = s := by
  induction s with
  | nil => rfl
  | cons c rest ih =>
    have hc : ¬ c = '\\' := fun he => h (he ▸ List.mem_cons_self c rest)
    have hr : '\\' ∉ rest := fun hm => h (List.mem_cons_of_mem c hm)
    rw [ghack_unescape.eq_def]
    simp only [if_neg hc, ih hr]

/-- a word without backslashes and glob metacharacters does not need
glob(3). -/
theorem glob_needed_false (s : CStr) (h92 : '\\' ∉ s)
    (hg : ∀ c ∈ s, ¬ chrIn c (str "*[?")) : glob_needed s = false := by
  induction s with
  | nil => rfl
  | cons c rest ih =>
    have hc : ¬ c = '\\' := fun he => h92 (he ▸ List.mem_cons_self c rest)
    have hcg : ¬ chrIn c (str "*[?") = true := by
      simpa using hg c (List.mem_cons_self c rest)
    rw [glob_needed.eq_def]
    simp only [if_neg hc, if_neg hcg]
    exact ih (fun hm => h92 (List.mem_cons_of_mem c hm))
      (fun d hd => hg d (List.mem_cons_of_mem c hd))

/-- xglob passes a nonnull word free of backslashes and glob
metacharacters through globhack unaltered, appending it as one path. -/
theorem xglob_clean (gsys : CStr → GlobOut) (s : CStr) (ap : Bool) (pg : List CStr)
    (h92 : '\\' ∉ s) (hg : ∀ c ∈ s, ¬ chrIn c (str "*[?")) :
    xglob gsys ⟨s, false, true⟩ ap pg = .ret (0, (if ap then pg else []) ++ [s]) := by
  cases s with
  | nil => norm_num [xglob, globhack, ghack_unescape, GLOB_NOSPACE]
  | cons c rest =>
    norm_num [xglob, globhack, glob_needed_false _ h92 hg,
      ghack_unescape_id _ h92, GLOB_NOSPACE]

/-- the single-quote copy loop transfers a quote-free NUL-free span
verbatim and stops at the closing quote. -/
theorem squote_loop_clean (s rest : CStr) (dest : o_string)
    (hq : '\'' ∉ s) (h0 : Char.ofNat 0 ∉ s) :
    squote_loop false (s ++ '\'' :: rest) dest =
      (true, { dest with data := dest.data ++ s }, rest) := by
  induction s generalizing dest with
  | nil =>
    rw [List.nil_append, squote_loop.eq_def]
    norm_num [show (('\'' : Char) = Char.ofNat 0) = False from by decide]
  | cons c cs ih =>
    have hc0 : ¬ c = Char.ofNat 0 := fun he => h0 (he ▸ List.mem_cons_self c cs)
    have hcq : ¬ c = '\'' := fun he => hq (he ▸ List.mem_cons_self c cs)
    have hqc : '\'' ∉ cs := fun hm => hq (List.mem_cons_of_mem c hm)
    have h0c : Char.ofNat 0 ∉ cs := fun hm => h0 (List.mem_cons_of_mem c hm)
    rw [List.cons_append, squote_loop.eq_def]
    simp only [Bool.not_false, if_neg hcq, hc0, and_false, if_false, true_and,
      if_neg hc0]
    rw [ih (b_addchr dest c) hqc h0c]
    simp [b_addchr, List.append_assoc]

/-- the parse_stream iteration that opens a single quote: the quoted span
is copied verbatim into the word (marking it nonnull) and the closing
quote is consumed. -/
theorem ps_step_squote (fuel : Nat) (ctx : p_context) (g : GSt)
    (s rest : CStr) (hq : '\'' ∉ s) (h0 : Char.ofNat 0 ∉ s) :
    ps_step penv0 (fuel + 1) (cc (Char.ofNat 10))
      ⟨⟨[], false, false⟩, ctx, ⟨false, '\'' :: (s ++ '\'' :: rest)⟩, g⟩ =
      .ret (.cont ⟨⟨s, false, true⟩, ctx, ⟨false, rest⟩, g⟩) := by
  show (match squote_loop false (s ++ '\'' :: rest) ⟨[], false, true⟩ with
        | (false, dest2, chars') =>
            PRes.ret (StepOut.brk 1 false ⟨dest2, ctx, ⟨false, chars'⟩, synerr g⟩)
        | (true, dest2, chars') =>
            PRes.ret (StepOut.cont ⟨dest2, ctx, ⟨false, chars'⟩, g⟩) : PRes StepOut) =
      PRes.ret (StepOut.cont ⟨⟨s, false, true⟩, ctx, ⟨false, rest⟩, g⟩)
  rw [squote_loop_clean s rest ⟨[], false, true⟩ hq h0]
  rfl

/-- done_word commits a clean nonnull word as the second argument of a
command whose argv already holds one word. -/
theorem done_word_squote_commit (fuel : Nat) (s : CStr) (g : GSt)
    (h92 : '\\' ∉ s) (hg : ∀ c ∈ s, ¬ chrIn c (str "*[?")) :
    done_word penv0 (fuel + 2) ⟨s, false, true⟩
      ⟨⟨child_prog.mk (some [str "x"]) none false [] 0 2 0, [], [], false, 0, 0, 2⟩, []⟩ g =
    .ret (0, ⟨[], false, false⟩,
      ⟨⟨child_prog.mk (some [str "x", s]) none false [] 0 2 0, [], [], false, 0, 0, 2⟩, []⟩,
      g) := by
  cases s with
  | nil => rfl
  | cons c cs =>
    show (match xglob penv0.globSys ⟨c :: cs, false, true⟩ true [str "x"] with
          | CRes.die m => PRes.die m
          | CRes.ret (gr, pathv) =>
            if gr ≠ 0 then
              PRes.ret (1, ⟨c :: cs, false, true⟩,
                ⟨⟨child_prog.mk (some [str "x"]) none false [] 0 2 0, [], [], false, 0, 0, 2⟩,
                 []⟩, g)
            else
              PRes.ret (0, ⟨[], false, false⟩,
                ⟨⟨child_prog.mk (some pathv) none false [] 0 2 0, [], [], false, 0, 0, 2⟩,
                 []⟩, g)
          : PRes (Int × o_string × p_context × GSt)) =
      PRes.ret (0, ⟨[], false, false⟩,
        ⟨⟨child_prog.mk (some [str "x", c :: cs]) none false [] 0 2 0, [], [], false, 0, 0, 2⟩,
         []⟩, g)
    rw [xglob_clean penv0.globSys (c :: cs) true [str "x"] h92 hg]
    rfl

/-- the parse_stream iteration at the final newline: the pending clean
word is committed as the second argument, the pipe is closed with
PIPE_SEQ, and the loop exits with 0 at its unquoted terminator. -/
theorem ps_step_nl_commit (fuel : Nat) (s : CStr) (g : GSt)
    (h92 : '\\' ∉ s) (hg : ∀ c ∈ s, ¬ chrIn c (str "*[?")) :
    ps_step penv0 (fuel + 3) (cc (Char.ofNat 10))
      ⟨⟨s, false, true⟩,
       ⟨⟨child_prog.mk (some [str "x"]) none false [] 0 2 0, [], [], false, 0, 0, 2⟩, []⟩,
       ⟨false, [Char.ofNat 10]⟩, g⟩ =
      .ret (.brk 0 false
        ⟨⟨[], false, false⟩,
         ⟨⟨child_prog.mk none none false [] 0 2 0, [],
           [pipe.mk [child_prog.mk (some [str "x", s]) none false [] 0 2 0] 1 0],
           false, 0, 0, 2⟩, []⟩,
         ⟨false, []⟩, g⟩) := by
  show (match done_word penv0 (fuel + 2) ⟨s, false, true⟩
          ⟨⟨child_prog.mk (some [str "x"]) none false [] 0 2 0, [], [], false, 0, 0, 2⟩, []⟩
          g with
        | PRes.die msg => PRes.die msg
        | PRes.nofuel => PRes.nofuel
        | PRes.ret (dw, dest', ctx', gst') =>
          if dw ≠ 0 then
            PRes.ret (StepOut.brk 1 false ⟨dest', ctx', ⟨false, []⟩, gst'⟩)
          else
            if cc '\n' = cc (Char.ofNat 10) ∧ ¬dest'.quote = true ∧
                (done_pipe ctx' PIPE_SEQ).frame.w = RES_NONE then
              PRes.ret (StepOut.brk 0 false
                ⟨dest', done_pipe ctx' PIPE_SEQ, ⟨false, []⟩, gst'⟩)
            else
              PRes.ret (StepOut.cont
                ⟨dest', done_pipe ctx' PIPE_SEQ, ⟨false, []⟩, gst'⟩)
        : PRes StepOut) =
    PRes.ret (StepOut.brk 0 false
      ⟨⟨[], false, false⟩,
       ⟨⟨child_prog.mk none none false [] 0 2 0, [],
         [pipe.mk [child_prog.mk (some [str "x", s]) none false [] 0 2 0] 1 0],
         false, 0, 0, 2⟩, []⟩,
       ⟨false, []⟩, g⟩)
  rw [done_word_squote_commit fuel s g h92 hg]
  rfl



/-- get_local_var agrees with first-match search of the list. -/
theorem get_local_var_eq_find (vars : List variables_s) (n : CStr) :
    get_local_var vars n = (vars.find? (fun w => w.name = n)).map (fun w => w.value) := by
  induction vars with
  | nil => rfl
  | cons cur rest ih =>
    by_cases h : cur.name = n
    · simp [get_local_var, List.find?, h]
    · simp [get_local_var, List.find?, h, ih]

/-- takeWhile and dropWhile on a list whose front satisfies the predicate
and whose next element falsifies it. -/
theorem takeWhile_app (p : Char → Bool) (name tl : CStr)
    (h : ∀ a ∈ name, p a = true) (c : Char) (hp : p c = false) :
    ((name ++ c :: tl).takeWhile p = name) ∧
    ((name ++ c :: tl).dropWhile p = c :: tl) := by
  induction name with
  | nil => simp [List.takeWhile_cons, List.dropWhile_cons, hp]
  | cons d rest ih =>
    have hd := h d (by simp)
    have hrest : ∀ a ∈ rest, p a = true := fun a ha => h a (by simp [ha])
    simp [List.takeWhile_cons, List.dropWhile_cons, hd, ih hrest]

/-- splitEq of a well-formed NAME=VALUE string. -/
theorem splitEq_append (name value : CStr) (h : '=' ∉ name) :
    splitEq (name ++ '=' :: value) = some (name, value) := by
  have hmem : '=' ∈ name ++ '=' :: value := by simp
  have key := takeWhile_app (· ≠ '=') name value
    (fun a ha => by
      simp only [decide_eq_true_eq]
      exact fun he => h (he ▸ ha))
    '=' (by simp)
  unfold splitEq
  rw [if_pos hmem, key.1, key.2]
  rfl

/-- the ivv loop preserves an already-set done flag. -/
theorem ivv_go_done (look : CStr → Option CStr) (fuel : Nat) :
    ∀ inp res tl res' dn',
      ivv_go look fuel inp res true = some (tl, res', dn') → dn' = true := by
  induction fuel with
  | zero => intro inp res tl res' dn' h; simp [ivv_go] at h
  | succ fuel ih =>
    intro inp res tl res' dn' h
    simp only [ivv_go] at h
    rcases h1 : splitAtMark inp with _ | ⟨pre, rest1⟩
    · simp only [h1] at h; cases h; rfl
    · simp only [h1] at h
      rcases h2 : splitAtMark rest1 with _ | ⟨nm, rest2⟩
      · simp only [h2] at h; simp at h
      · simp only [h2] at h
        exact ih _ _ _ _ _ h

/-! ## Theorems for the claims (first batch) -/

/-- C10: set_local_var rejects an argument with no '=' or with an empty
value part, returning -1 and leaving the variable table, the environment
and the diagnostics unchanged. -/
theorem C10_set_local_var_rejects_empty_value (s : CStr) (flg : Int) (st : VarSt)
    (h : '=' ∉ s ∨ ∃ n, s = n ++ ['='] ∧ '=' ∉ n) :
    set_local_var s flg st = (-1, st) := by
  rcases h with h | ⟨n, hs, hn⟩
  · have hnone : splitEq s = none := by simp [splitEq, h]
    simp [set_local_var, hnone]
  · subst hs
    have hsome : splitEq (n ++ ['=']) = some (n, []) := splitEq_append n [] hn
    simp [set_local_var, hsome]

/-- Witness for C10 at the concrete inputs "ABC" and "A=". -/
theorem C10_witness :
    set_local_var (str "ABC") 1 VarSt.init = (-1, VarSt.init) ∧
    set_local_var (str "A=") 0 VarSt.init = (-1, VarSt.init) := by
  constructor
  · exact C10_set_local_var_rejects_empty_value (str "ABC") 1 VarSt.init (Or.inl (by decide))
  · exact C10_set_local_var_rejects_empty_value (str "A=") 0 VarSt.init
      (Or.inr ⟨str "A", by decide, by decide⟩)

/-- C5 counterexample: assigning a read-only, non-exported binding its
current value with the export flag set returns 0 (success) and changes
the binding's export flag, contradicting the claim that any set_local_var
call on a read-only name fails and leaves the flags unchanged. -/
theorem C5_counterexample :
    set_local_var (str "RO=v") 1
      { vars := [shell_ver, ⟨str "RO", str "v", 0, 1⟩], env := [], msgs := [] } =
    (0, { vars := [shell_ver, ⟨str "RO", str "v", 1, 1⟩],
          env := [str "RO=v"], msgs := [] }) := by
  decide

/-- C5 amended: a read-only binding rejects a value **change** (returning
-1 with a readonly diagnostic and an unchanged table), a same-value
assignment is treated as success, and unset_local_var always refuses to
remove a read-only binding, leaving the state intact apart from the
diagnostic. -/
theorem C5_amended_readonly (st : VarSt) (name value : CStr) (v : variables_s)
    (flg : Int)
    (hn : '=' ∉ name) (hv : value ≠ [])
    (hfind : st.vars.find? (fun w => w.name = name) = some v)
    (hro : v.flg_read_only ≠ 0) :
    (v.value ≠ value →
      set_local_var (name ++ '=' :: value) flg st =
        (-1, { st with msgs := st.msgs ++ ["readonly variable"] })) ∧
    (v.value ≠ [] → (set_local_var (name ++ '=' :: v.value) flg st).1 = 0) ∧
    unset_local_var (some name) st =
      { st with msgs := st.msgs ++ ["readonly variable"] } := by
  have hget : get_local_var st.vars name = some v.value := by
    rw [get_local_var_eq_find, hfind]; rfl
  refine ⟨?_, ?_, ?_⟩
  · intro hne
    simp only [set_local_var, splitEq_append name value hn, hget, hfind,
      Option.map_some', Option.getD_some]
    rw [if_neg (by simpa using hv), if_neg hne, if_pos hro]
  · intro hvv
    simp only [set_local_var, splitEq_append name v.value hn, hget, hfind,
      Option.map_some', Option.getD_some]
    rw [if_neg (by simpa using hvv), if_pos trivial]
    by_cases h1 : flg > 0 ∧ v.flg_export = 0
    · rw [if_pos h1]
      by_cases h2 : flg = 1
      · rw [if_pos h2]
        simp only [c_putenv]
        split <;> rfl
      · rw [if_neg h2]
    · rw [if_neg h1]
  · simp only [unset_local_var, hfind, if_pos hro]

/-- Witness for the amended C5 theorem at the concrete RO=v binding. -/
theorem C5_amended_readonly_witness :
    (set_local_var (str "RO=w") 0
        { vars := [shell_ver, ⟨str "RO", str "v", 0, 1⟩], env := [], msgs := [] } =
      (-1, { vars := [shell_ver, ⟨str "RO", str "v", 0, 1⟩], env := [],
             msgs := ["readonly variable"] })) ∧
    unset_local_var (some (str "RO"))
        { vars := [shell_ver, ⟨str "RO", str "v", 0, 1⟩], env := [], msgs := [] } =
      { vars := [shell_ver, ⟨str "RO", str "v", 0, 1⟩], env := [],
        msgs := ["readonly variable"] } := by
  have h := C5_amended_readonly
    { vars := [shell_ver, ⟨str "RO", str "v", 0, 1⟩], env := [], msgs := [] }
    (str "RO") (str "w") ⟨str "RO", str "v", 0, 1⟩ 0
    (by decide) (by decide) (by decide) (by decide)
  exact ⟨h.1 (by decide), h.2.2⟩

/-- C9: insert_var_value returns an input without substitution sentinels
unchanged, and whenever the input contains a sentinel (so at least one
substitution pass runs) the returned string contains no newline: every
newline, whether from substituted values or the literal text, has been
replaced by a space. -/
theorem C9_insert_var_value_newlines (look : CStr → Option CStr) (inp : CStr) :
    (SPECIAL_VAR_SYMBOL ∉ inp → insert_var_value look inp = some inp) ∧
    (SPECIAL_VAR_SYMBOL ∈ inp → ∀ out,
      insert_var_value look inp = some out → '\n' ∉ out) := by
  constructor
  · intro h
    simp [insert_var_value, ivv_go, splitAtMark, h]
  · intro h out hout
    simp only [insert_var_value] at hout
    rcases hgo : ivv_go look (inp.length + 1) inp [] false with _ | ⟨tl, res, dn⟩
    · rw [hgo] at hout; exact absurd hout (by simp)
    · rw [hgo] at hout
      have hdn : dn = true := by
        rcases hfuel : inp.length + 1 with _ | fuel
        · omega
        · rw [hfuel] at hgo
          simp only [ivv_go] at hgo
          rcases h1 : splitAtMark inp with _ | ⟨pre, rest1⟩
          · exact absurd h1 (by simp [splitAtMark, h])
          · simp only [h1] at hgo
            rcases h2 : splitAtMark rest1 with _ | ⟨nm, rest2⟩
            · simp only [h2] at hgo; simp at hgo
            · simp only [h2] at hgo
              exact ivv_go_done look _ _ _ _ _ _ hgo
      rw [hdn] at hout
      simp only [if_true] at hout
      cases hout
      intro hmem
      rcases List.mem_map.mp hmem with ⟨c, _, hc⟩
      by_cases hcn : c = '\n' <;> simp [hcn] at hc

/-- Witness for C9 at concrete inputs with and without a sentinel. -/
theorem C9_witness :
    insert_var_value (fun _ => some (str "a\nb")) (str "x") = some (str "x") ∧
    insert_var_value (fun _ => some (str "a\nb"))
      ('\n' :: SPECIAL_VAR_SYMBOL :: 'V' :: [SPECIAL_VAR_SYMBOL]) = some (str " a b") := by
  refine ⟨(C9_insert_var_value_newlines _ _).1 (by decide), by decide⟩

/-- C6 counterexample: an allocation failure in b_addchr (token-buffer
growth) does not terminate the process: it frees the buffer and returns
the recoverable error code B_NOSPAC to the caller. -/
theorem C6_counterexample :
    b_addchr_alloc { data := some [], maxlen := 0, quote := false, nonnull := false }
      'a' false =
    .ret ({ data := none, maxlen := 100, quote := false, nonnull := false }, B_NOSPAC) := by
  decide

/-- C6 amended: only the glob machinery treats allocation failure as
fatal.  Token-buffer growth failure returns a nonzero code from
b_check_space (B_NOSPAC from b_addchr), variable-table insertion failure
returns -1 from set_local_var, while an out-of-memory result inside
xglob terminates the process with a diagnostic. -/
theorem C6_amended_fatality (o : o_string_alloc) (len : Nat)
    (hgrow : (o.data.getD []).length + len > o.maxlen)
    (s : CStr) (flg : Int) (st : VarSt) (n v : CStr)
    (hsplit : splitEq s = some (n, v)) (hv : v ≠ [])
    (hfresh : get_local_var st.vars n = none)
    (globSys : CStr → GlobOut) (dest : o_string) (ap : Bool) (pg : List CStr)
    (hne : dest.data ≠ []) (hng : glob_needed dest.data = false) :
    b_check_space o len false =
      .ret ({ o with maxlen := o.maxlen + max (2 * len) B_CHUNK, data := none }, 1) ∧
    set_local_var s flg st false = (-1, st) ∧
    xglob globSys dest ap pg false = .die "out of memory during glob" := by
  refine ⟨?_, ?_, ?_⟩
  · simp [b_check_space, hgrow]
  · simp [set_local_var, hsplit, hv, hfresh]
  · simp [xglob, globhack, hne, hng, GLOB_NOSPACE]

/-- Witness for the amended C6 theorem at concrete inputs. -/
theorem C6_amended_fatality_witness :
    b_check_space { data := some [], maxlen := 0, quote := false, nonnull := false } 1 false =
      .ret ({ data := none, maxlen := 100, quote := false, nonnull := false }, 1) ∧
    set_local_var (str "FOO=bar") 0 VarSt.init false = (-1, VarSt.init) ∧
    xglob (fun _ => .nomatch) { data := str "w", quote := false, nonnull := false }
      false [] false = .die "out of memory during glob" := by
  exact C6_amended_fatality
    { data := some [], maxlen := 0, quote := false, nonnull := false } 1 (by decide)
    (str "FOO=bar") 0 VarSt.init (str "FOO") (str "bar") (by decide) (by decide)
    (by decide) (fun _ => .nomatch) { data := str "w", quote := false, nonnull := false }
    false [] (by decide) (by decide)


/-! ## Theorems: C1, C2, C7, C8 -/

/-- C1: a single foreground command of pure assignments does return
EXIT_SUCCESS from run_pipe_real, but the fresh binding is lost: with the
word FOO=bar and FOO unbound, set_local_var's new-binding branch frees
the node whenever strdup succeeds (its null check is inverted), so
afterwards get_local_var on FOO still yields nothing and the table is
exactly as before.  This contradicts the claim's "get_local_var(NAME)
returns VALUE, creating a new binding". -/
theorem C1_assignment_binding_lost :
    run_pipe_real
      ⟨false, false, fun _ => false, fun _ _ st => (0, st), fun _ _ st => (0, st),
       fun _ st => (0, st), fun _ st => st, fun n => 100 + n⟩
      10
      (.mk [.mk (some [str "FOO=bar"]) none false [] 0 FLAG_PARSE_SEMICOLON 0]
        PIPE_SEQ RES_NONE)
      ⟨VarSt.init, 0, [], 0⟩ =
      .ret (EXIT_SUCCESS,
        .mk [.mk (some [str "FOO=bar"]) none false [] 0 FLAG_PARSE_SEMICOLON 0]
          PIPE_SEQ RES_NONE,
        ⟨VarSt.init, 0, [], 0⟩) ∧
    get_local_var VarSt.init.vars (str "FOO") = none := by
  exact ⟨rfl, rfl⟩

/-- C7 counterexample: `while` appearing when the previous reserved word
was `if` (whose successor mask FLAG_THEN does not contain the while bit)
is NOT treated as a syntax error: reserved_word pushes a fresh nested
context with w = RES_WHILE, prints nothing, and never sets RES_SNTX, so
the mask check of the claim does not apply to compound-starting words. -/
theorem C7_counterexample :
    FLAG_THEN &&& (1 <<< RES_WHILE) = 0 ∧
    reserved_word ⟨str "while", false, false⟩
      ⟨⟨empty_child FLAG_PARSE_SEMICOLON, [], [], false, RES_IF, FLAG_THEN,
        FLAG_PARSE_SEMICOLON⟩, []⟩
      ⟨[], 0⟩ =
    some (1, ⟨[], false, false⟩,
      ⟨⟨empty_child FLAG_PARSE_SEMICOLON, [], [], false, RES_WHILE,
        FLAG_DO ||| FLAG_START, FLAG_PARSE_SEMICOLON⟩,
       [⟨empty_child FLAG_PARSE_SEMICOLON, [], [], false, RES_IF, FLAG_THEN,
         FLAG_PARSE_SEMICOLON⟩]⟩,
      ⟨[], 0⟩) := by
  exact ⟨rfl, rfl⟩

/-- C7 amended: the syntax-error path of reserved_word (diagnostic,
buffer discarded, permanent RES_SNTX, return 1) fires for a
non-compound-starting reserved word whose code bit is missing from the
previous word's successor mask (or with no previous reserved word at
all), and for a compound-starting word exactly when an `in` or a
for-variable is expected; a compound-starting word in any other state is
accepted regardless of the mask. -/
theorem C7_amended_reserved_word (dest : o_string) (ctx : p_context) (gst : GSt)
    (r : reserved_combo)
    (hfind : reserved_list.find? (fun c => c.literal = dest.data) = some r) :
    (r.flag &&& FLAG_START = 0 →
      (ctx.frame.w = RES_NONE ∨ ctx.frame.old_flag &&& (1 <<< r.code) = 0) →
      reserved_word dest ctx gst =
        some (1, b_reset dest,
          { ctx with frame := { ctx.frame with w := RES_SNTX } }, synerr gst)) ∧
    (r.flag &&& FLAG_START ≠ 0 →
      (ctx.frame.w = RES_IN ∨ ctx.frame.w = RES_FOR) →
      reserved_word dest ctx gst =
        some (1, b_reset dest,
          { ctx with frame := { ctx.frame with w := RES_SNTX } }, synerr gst)) := by
  constructor
  · intro hstart hmask
    simp only [reserved_word, hfind, hstart]
    simp [hmask]
  · intro hstart hw
    simp only [reserved_word, hfind]
    simp [hstart, hw]

/-- Witness for the amended C7 theorem: `then` with no previous reserved
word, and `while` while a for-variable is expected. -/
theorem C7_amended_reserved_word_witness :
    reserved_word ⟨str "then", false, false⟩
      ⟨⟨empty_child 2, [], [], false, RES_NONE, 0, 2⟩, []⟩ ⟨[], 0⟩ =
      some (1, ⟨[], false, false⟩,
        ⟨⟨empty_child 2, [], [], false, RES_SNTX, 0, 2⟩, []⟩,
        ⟨["syntax error"], 0⟩) ∧
    reserved_word ⟨str "while", false, false⟩
      ⟨⟨empty_child 2, [], [], false, RES_FOR, FLAG_IN, 2⟩, []⟩ ⟨[], 0⟩ =
      some (1, ⟨[], false, false⟩,
        ⟨⟨empty_child 2, [], [], false, RES_SNTX, FLAG_IN, 2⟩, []⟩,
        ⟨["syntax error"], 0⟩) := by
  constructor
  · exact ((C7_amended_reserved_word ⟨str "then", false, false⟩
      ⟨⟨empty_child 2, [], [], false, RES_NONE, 0, 2⟩, []⟩ ⟨[], 0⟩
      ⟨str "then", RES_THEN, FLAG_ELIF ||| FLAG_ELSE ||| FLAG_FI⟩ rfl).1
      (by decide) (Or.inl rfl))
  · exact ((C7_amended_reserved_word ⟨str "while", false, false⟩
      ⟨⟨empty_child 2, [], [], false, RES_FOR, FLAG_IN, 2⟩, []⟩ ⟨[], 0⟩
      ⟨str "while", RES_WHILE, FLAG_DO ||| FLAG_START⟩ rfl).2
      (by decide) (Or.inr rfl))

end Hush
namespace Hush

/-- C2: counterexample.  Running the pipe list parsed from
`false && echo yes || echo no` forks only `false` (the spawn log gains no
echo entry at all, so the third pipe `echo no` is never executed, let
alone printing anything) and the list returns exit status 1, not 0: the
skip begun by the failed `&&` is not ended at the `||` pipe, because
run_list_real stops skipping only after passing a skipped pipe whose
followup is PIPE_SEQ, and `echo yes` carries followup PIPE_OR. -/
theorem C2_counterexample :
    run_list_real eenv0 12 c2_parsed ⟨VarSt.init, 0, [], 0⟩ =
      .ret (1, ⟨VarSt.init, 1, [[str "false"]], 1⟩) := by
  rfl

/-- C2 (amended): parse_stream turns `false && echo yes || echo no` into
the three-pipe list c2_parsed (plus the trailing open pipe), and from any
starting shell state run_list_real on that list forks exactly one child,
`false`, skips both `echo yes` and `echo no` (the skip run begun by the
failed `&&` only ends after a skipped pipe with PIPE_SEQ followup, which
`echo no` itself is), and returns the exit status 1 of `false`. -/
theorem C2_amended_skip_through_or (st0 : ShellSt) :
    (∃ stF : PSt,
      parse_stream penv0 40 (cc (Char.ofNat 10))
        (pst0 "false && echo yes || echo no\n") =
        .ret (0, false, stF) ∧ stF.ctx.list_head = c2_parsed) ∧
    run_list_real eenv0 12 c2_parsed st0 =
      .ret (1, { st0 with
        last_return_code := 1
        spawned := st0.spawned ++ [[str "false"]]
        spawn_ctr := st0.spawn_ctr + 1 }) := by
  constructor
  case left =>
    have h0 : ps_step penv0 39 (cc (Char.ofNat 10)) (⟨⟨([] : CStr), false, false⟩, ⟨⟨(child_prog.mk none none false [] 0 2 0), [], [], false, 0, 0, 2⟩, []⟩, ⟨false, (str "false && echo yes || echo no" ++ [Char.ofNat 10])⟩, ⟨[], 0⟩⟩ : PSt) = .ret (.cont (⟨⟨(str "f"), false, false⟩, ⟨⟨(child_prog.mk none none false [] 0 2 0), [], [], false, 0, 0, 2⟩, []⟩, ⟨false, (str "alse && echo yes || echo no" ++ [Char.ofNat 10])⟩, ⟨[], 0⟩⟩ : PSt)) := by rfl
    have h1 : ps_step penv0 38 (cc (Char.ofNat 10)) (⟨⟨(str "f"), false, false⟩, ⟨⟨(child_prog.mk none none false [] 0 2 0), [], [], false, 0, 0, 2⟩, []⟩, ⟨false, (str "alse && echo yes || echo no" ++ [Char.ofNat 10])⟩, ⟨[], 0⟩⟩ : PSt) = .ret (.cont (⟨⟨(str "fa"), false, false⟩, ⟨⟨(child_prog.mk none none false [] 0 2 0), [], [], false, 0, 0, 2⟩, []⟩, ⟨false, (str "lse && echo yes || echo no" ++ [Char.ofNat 10])⟩, ⟨[], 0⟩⟩ : PSt)) := by rfl
    have h2 : ps_step penv0 37 (cc (Char.ofNat 10)) (⟨⟨(str "fa"), false, false⟩, ⟨⟨(child_prog.mk none none false [] 0 2 0), [], [], false, 0, 0, 2⟩, []⟩, ⟨false, (str "lse && echo yes || echo no" ++ [Char.ofNat 10])⟩, ⟨[], 0⟩⟩ : PSt) = .ret (.cont (⟨⟨(str "fal"), false, false⟩, ⟨⟨(child_prog.mk none none false [] 0 2 0), [], [], false, 0, 0, 2⟩, []⟩, ⟨false, (str "se && echo yes || echo no" ++ [Char.ofNat 10])⟩, ⟨[], 0⟩⟩ : PSt)) := by rfl
    have h3 : ps_step penv0 36 (cc (Char.ofNat 10)) (⟨⟨(str "fal"), false, false⟩, ⟨⟨(child_prog.mk none none false [] 0 2 0), [], [], false, 0, 0, 2⟩, []⟩, ⟨false, (str "se && echo yes || echo no" ++ [Char.ofNat 10])⟩, ⟨[], 0⟩⟩ : PSt) = .ret (.cont (⟨⟨(str "fals"), false, false⟩, ⟨⟨(child_prog.mk none none false [] 0 2 0), [], [], false, 0, 0, 2⟩, []⟩, ⟨false, (str "e && echo yes || echo no" ++ [Char.ofNat 10])⟩, ⟨[], 0⟩⟩ : PSt)) := by rfl
    have h4 : ps_step penv0 35 (cc (Char.ofNat 10)) (⟨⟨(str "fals"), false, false⟩, ⟨⟨(child_prog.mk none none false [] 0 2 0), [], [], false, 0, 0, 2⟩, []⟩, ⟨false, (str "e && echo yes || echo no" ++ [Char.ofNat 10])⟩, ⟨[], 0⟩⟩ : PSt) = .ret (.cont (⟨⟨(str "false"), false, false⟩, ⟨⟨(child_prog.mk none none false [] 0 2 0), [], [], false, 0, 0, 2⟩, []⟩, ⟨false, (str " && echo yes || echo no" ++ [Char.ofNat 10])⟩, ⟨[], 0⟩⟩ : PSt)) := by rfl
    have h5 : ps_step penv0 34 (cc (Char.ofNat 10)) (⟨⟨(str "false"), false, false⟩, ⟨⟨(child_prog.mk none none false [] 0 2 0), [], [], false, 0, 0, 2⟩, []⟩, ⟨false, (str " && echo yes || echo no" ++ [Char.ofNat 10])⟩, ⟨[], 0⟩⟩ : PSt) = .ret (.cont (⟨⟨([] : CStr), false, false⟩, ⟨⟨(child_prog.mk (some [(str "false")]) none false [] 0 2 0), [], [], false, 0, 0, 2⟩, []⟩, ⟨false, (str "&& echo yes || echo no" ++ [Char.ofNat 10])⟩, ⟨[], 0⟩⟩ : PSt)) := by rfl
    have h6 : ps_step penv0 33 (cc (Char.ofNat 10)) (⟨⟨([] : CStr), false, false⟩, ⟨⟨(child_prog.mk (some [(str "false")]) none false [] 0 2 0), [], [], false, 0, 0, 2⟩, []⟩, ⟨false, (str "&& echo yes || echo no" ++ [Char.ofNat 10])⟩, ⟨[], 0⟩⟩ : PSt) = .ret (.cont (⟨⟨([] : CStr), false, false⟩, ⟨⟨(child_prog.mk none none false [] 0 2 0), [], [(pipe.mk [(child_prog.mk (some [(str "false")]) none false [] 0 2 0)] 2 0)], false, 0, 0, 2⟩, []⟩, ⟨false, (str " echo yes || echo no" ++ [Char.ofNat 10])⟩, ⟨[], 0⟩⟩ : PSt)) := by rfl
    have h7 : ps_step penv0 32 (cc (Char.ofNat 10)) (⟨⟨([] : CStr), false, false⟩, ⟨⟨(child_prog.mk none none false [] 0 2 0), [], [(pipe.mk [(child_prog.mk (some [(str "false")]) none false [] 0 2 0)] 2 0)], false, 0, 0, 2⟩, []⟩, ⟨false, (str " echo yes || echo no" ++ [Char.ofNat 10])⟩, ⟨[], 0⟩⟩ : PSt) = .ret (.cont (⟨⟨([] : CStr), false, false⟩, ⟨⟨(child_prog.mk none none false [] 0 2 0), [], [(pipe.mk [(child_prog.mk (some [(str "false")]) none false [] 0 2 0)] 2 0)], false, 0, 0, 2⟩, []⟩, ⟨false, (str "echo yes || echo no" ++ [Char.ofNat 10])⟩, ⟨[], 0⟩⟩ : PSt)) := by rfl
    have h8 : ps_step penv0 31 (cc (Char.ofNat 10)) (⟨⟨([] : CStr), false, false⟩, ⟨⟨(child_prog.mk none none false [] 0 2 0), [], [(pipe.mk [(child_prog.mk (some [(str "false")]) none false [] 0 2 0)] 2 0)], false, 0, 0, 2⟩, []⟩, ⟨false, (str "echo yes || echo no" ++ [Char.ofNat 10])⟩, ⟨[], 0⟩⟩ : PSt) = .ret (.cont (⟨⟨(str "e"), false, false⟩, ⟨⟨(child_prog.mk none none false [] 0 2 0), [], [(pipe.mk [(child_prog.mk (some [(str "false")]) none false [] 0 2 0)] 2 0)], false, 0, 0, 2⟩, []⟩, ⟨false, (str "cho yes || echo no" ++ [Char.ofNat 10])⟩, ⟨[], 0⟩⟩ : PSt)) := by rfl
    have h9 : ps_step penv0 30 (cc (Char.ofNat 10)) (⟨⟨(str "e"), false, false⟩, ⟨⟨(child_prog.mk none none false [] 0 2 0), [], [(pipe.mk [(child_prog.mk (some [(str "false")]) none false [] 0 2 0)] 2 0)], false, 0, 0, 2⟩, []⟩, ⟨false, (str "cho yes || echo no" ++ [Char.ofNat 10])⟩, ⟨[], 0⟩⟩ : PSt) = .ret (.cont (⟨⟨(str "ec"), false, false⟩, ⟨⟨(child_prog.mk none none false [] 0 2 0), [], [(pipe.mk [(child_prog.mk (some [(str "false")]) none false [] 0 2 0)] 2 0)], false, 0, 0, 2⟩, []⟩, ⟨false, (str "ho yes || echo no" ++ [Char.ofNat 10])⟩, ⟨[], 0⟩⟩ : PSt)) := by rfl
    have h10 : ps_step penv0 29 (cc (Char.ofNat 10)) (⟨⟨(str "ec"), false, false⟩, ⟨⟨(child_prog.mk none none false [] 0 2 0), [], [(pipe.mk [(child_prog.mk (some [(str "false")]) none false [] 0 2 0)] 2 0)], false, 0, 0, 2⟩, []⟩, ⟨false, (str "ho yes || echo no" ++ [Char.ofNat 10])⟩, ⟨[], 0⟩⟩ : PSt) = .ret (.cont (⟨⟨(str "ech"), false, false⟩, ⟨⟨(child_prog.mk none none false [] 0 2 0), [], [(pipe.mk [(child_prog.mk (some [(str "false")]) none false [] 0 2 0)] 2 0)], false, 0, 0, 2⟩, []⟩, ⟨false, (str "o yes || echo no" ++ [Char.ofNat 10])⟩, ⟨[], 0⟩⟩ : PSt)) := by rfl
    have h11 : ps_step penv0 28 (cc (Char.ofNat 10)) (⟨⟨(str "ech"), false, false⟩, ⟨⟨(child_prog.mk none none false [] 0 2 0), [], [(pipe.mk [(child_prog.mk (some [(str "false")]) none false [] 0 2 0)] 2 0)], false, 0, 0, 2⟩, []⟩, ⟨false, (str "o yes || echo no" ++ [Char.ofNat 10])⟩, ⟨[], 0⟩⟩ : PSt) = .ret (.cont (⟨⟨(str "echo"), false, false⟩, ⟨⟨(child_prog.mk none none false [] 0 2 0), [], [(pipe.mk [(child_prog.mk (some [(str "false")]) none false [] 0 2 0)] 2 0)], false, 0, 0, 2⟩, []⟩, ⟨false, (str " yes || echo no" ++ [Char.ofNat 10])⟩, ⟨[], 0⟩⟩ : PSt)) := by rfl
    have h12 : ps_step penv0 27 (cc (Char.ofNat 10)) (⟨⟨(str "echo"), false, false⟩, ⟨⟨(child_prog.mk none none false [] 0 2 0), [], [(pipe.mk [(child_prog.mk (some [(str "false")]) none false [] 0 2 0)] 2 0)], false, 0, 0, 2⟩, []⟩, ⟨false, (str " yes || echo no" ++ [Char.ofNat 10])⟩, ⟨[], 0⟩⟩ : PSt) = .ret (.cont (⟨⟨([] : CStr), false, false⟩, ⟨⟨(child_prog.mk (some [(str "echo")]) none false [] 0 2 0), [], [(pipe.mk [(child_prog.mk (some [(str "false")]) none false [] 0 2 0)] 2 0)], false, 0, 0, 2⟩, []⟩, ⟨false, (str "yes || echo no" ++ [Char.ofNat 10])⟩, ⟨[], 0⟩⟩ : PSt)) := by rfl
    have h13 : ps_step penv0 26 (cc (Char.ofNat 10)) (⟨⟨([] : CStr), false, false⟩, ⟨⟨(child_prog.mk (some [(str "echo")]) none false [] 0 2 0), [], [(pipe.mk [(child_prog.mk (some [(str "false")]) none false [] 0 2 0)] 2 0)], false, 0, 0, 2⟩, []⟩, ⟨false, (str "yes || echo no" ++ [Char.ofNat 10])⟩, ⟨[], 0⟩⟩ : PSt) = .ret (.cont (⟨⟨(str "y"), false, false⟩, ⟨⟨(child_prog.mk (some [(str "echo")]) none false [] 0 2 0), [], [(pipe.mk [(child_prog.mk (some [(str "false")]) none false [] 0 2 0)] 2 0)], false, 0, 0, 2⟩, []⟩, ⟨false, (str "es || echo no" ++ [Char.ofNat 10])⟩, ⟨[], 0⟩⟩ : PSt)) := by rfl
    have h14 : ps_step penv0 25 (cc (Char.ofNat 10)) (⟨⟨(str "y"), false, false⟩, ⟨⟨(child_prog.mk (some [(str "echo")]) none false [] 0 2 0), [], [(pipe.mk [(child_prog.mk (some [(str "false")]) none false [] 0 2 0)] 2 0)], false, 0, 0, 2⟩, []⟩, ⟨false, (str "es || echo no" ++ [Char.ofNat 10])⟩, ⟨[], 0⟩⟩ : PSt) = .ret (.cont (⟨⟨(str "ye"), false, false⟩, ⟨⟨(child_prog.mk (some [(str "echo")]) none false [] 0 2 0), [], [(pipe.mk [(child_prog.mk (some [(str "false")]) none false [] 0 2 0)] 2 0)], false, 0, 0, 2⟩, []⟩, ⟨false, (str "s || echo no" ++ [Char.ofNat 10])⟩, ⟨[], 0⟩⟩ : PSt)) := by rfl
    have h15 : ps_step penv0 24 (cc (Char.ofNat 10)) (⟨⟨(str "ye"), false, false⟩, ⟨⟨(child_prog.mk (some [(str "echo")]) none false [] 0 2 0), [], [(pipe.mk [(child_prog.mk (some [(str "false")]) none false [] 0 2 0)] 2 0)], false, 0, 0, 2⟩, []⟩, ⟨false, (str "s || echo no" ++ [Char.ofNat 10])⟩, ⟨[], 0⟩⟩ : PSt) = .ret (.cont (⟨⟨(str "yes"), false, false⟩, ⟨⟨(child_prog.mk (some [(str "echo")]) none false [] 0 2 0), [], [(pipe.mk [(child_prog.mk (some [(str "false")]) none false [] 0 2 0)] 2 0)], false, 0, 0, 2⟩, []⟩, ⟨false, (str " || echo no" ++ [Char.ofNat 10])⟩, ⟨[], 0⟩⟩ : PSt)) := by rfl
    have h16 : ps_step penv0 23 (cc (Char.ofNat 10)) (⟨⟨(str "yes"), false, false⟩, ⟨⟨(child_prog.mk (some [(str "echo")]) none false [] 0 2 0), [], [(pipe.mk [(child_prog.mk (some [(str "false")]) none false [] 0 2 0)] 2 0)], false, 0, 0, 2⟩, []⟩, ⟨false, (str " || echo no" ++ [Char.ofNat 10])⟩, ⟨[], 0⟩⟩ : PSt) = .ret (.cont (⟨⟨([] : CStr), false, false⟩, ⟨⟨(child_prog.mk (some [(str "echo"), (str "yes")]) none false [] 0 2 0), [], [(pipe.mk [(child_prog.mk (some [(str "false")]) none false [] 0 2 0)] 2 0)], false, 0, 0, 2⟩, []⟩, ⟨false, (str "|| echo no" ++ [Char.ofNat 10])⟩, ⟨[], 0⟩⟩ : PSt)) := by rfl
    have h17 : ps_step penv0 22 (cc (Char.ofNat 10)) (⟨⟨([] : CStr), false, false⟩, ⟨⟨(child_prog.mk (some [(str "echo"), (str "yes")]) none false [] 0 2 0), [], [(pipe.mk [(child_prog.mk (some [(str "false")]) none false [] 0 2 0)] 2 0)], false, 0, 0, 2⟩, []⟩, ⟨false, (str "|| echo no" ++ [Char.ofNat 10])⟩, ⟨[], 0⟩⟩ : PSt) = .ret (.cont (⟨⟨([] : CStr), false, false⟩, ⟨⟨(child_prog.mk none none false [] 0 2 0), [], [(pipe.mk [(child_prog.mk (some [(str "false")]) none false [] 0 2 0)] 2 0), (pipe.mk [(child_prog.mk (some [(str "echo"), (str "yes")]) none false [] 0 2 0)] 3 0)], false, 0, 0, 2⟩, []⟩, ⟨false, (str " echo no" ++ [Char.ofNat 10])⟩, ⟨[], 0⟩⟩ : PSt)) := by rfl
    have h18 : ps_step penv0 21 (cc (Char.ofNat 10)) (⟨⟨([] : CStr), false, false⟩, ⟨⟨(child_prog.mk none none false [] 0 2 0), [], [(pipe.mk [(child_prog.mk (some [(str "false")]) none false [] 0 2 0)] 2 0), (pipe.mk [(child_prog.mk (some [(str "echo"), (str "yes")]) none false [] 0 2 0)] 3 0)], false, 0, 0, 2⟩, []⟩, ⟨false, (str " echo no" ++ [Char.ofNat 10])⟩, ⟨[], 0⟩⟩ : PSt) = .ret (.cont (⟨⟨([] : CStr), false, false⟩, ⟨⟨(child_prog.mk none none false [] 0 2 0), [], [(pipe.mk [(child_prog.mk (some [(str "false")]) none false [] 0 2 0)] 2 0), (pipe.mk [(child_prog.mk (some [(str "echo"), (str "yes")]) none false [] 0 2 0)] 3 0)], false, 0, 0, 2⟩, []⟩, ⟨false, (str "echo no" ++ [Char.ofNat 10])⟩, ⟨[], 0⟩⟩ : PSt)) := by rfl
    have h19 : ps_step penv0 20 (cc (Char.ofNat 10)) (⟨⟨([] : CStr), false, false⟩, ⟨⟨(child_prog.mk none none false [] 0 2 0), [], [(pipe.mk [(child_prog.mk (some [(str "false")]) none false [] 0 2 0)] 2 0), (pipe.mk [(child_prog.mk (some [(str "echo"), (str "yes")]) none false [] 0 2 0)] 3 0)], false, 0, 0, 2⟩, []⟩, ⟨false, (str "echo no" ++ [Char.ofNat 10])⟩, ⟨[], 0⟩⟩ : PSt) = .ret (.cont (⟨⟨(str "e"), false, false⟩, ⟨⟨(child_prog.mk none none false [] 0 2 0), [], [(pipe.mk [(child_prog.mk (some [(str "false")]) none false [] 0 2 0)] 2 0), (pipe.mk [(child_prog.mk (some [(str "echo"), (str "yes")]) none false [] 0 2 0)] 3 0)], false, 0, 0, 2⟩, []⟩, ⟨false, (str "cho no" ++ [Char.ofNat 10])⟩, ⟨[], 0⟩⟩ : PSt)) := by rfl
    have h20 : ps_step penv0 19 (cc (Char.ofNat 10)) (⟨⟨(str "e"), false, false⟩, ⟨⟨(child_prog.mk none none false [] 0 2 0), [], [(pipe.mk [(child_prog.mk (some [(str "false")]) none false [] 0 2 0)] 2 0), (pipe.mk [(child_prog.mk (some [(str "echo"), (str "yes")]) none false [] 0 2 0)] 3 0)], false, 0, 0, 2⟩, []⟩, ⟨false, (str "cho no" ++ [Char.ofNat 10])⟩, ⟨[], 0⟩⟩ : PSt) = .ret (.cont (⟨⟨(str "ec"), false, false⟩, ⟨⟨(child_prog.mk none none false [] 0 2 0), [], [(pipe.mk [(child_prog.mk (some [(str "false")]) none false [] 0 2 0)] 2 0), (pipe.mk [(child_prog.mk (some [(str "echo"), (str "yes")]) none false [] 0 2 0)] 3 0)], false, 0, 0, 2⟩, []⟩, ⟨false, (str "ho no" ++ [Char.ofNat 10])⟩, ⟨[], 0⟩⟩ : PSt)) := by rfl
    have h21 : ps_step penv0 18 (cc (Char.ofNat 10)) (⟨⟨(str "ec"), false, false⟩, ⟨⟨(child_prog.mk none none false [] 0 2 0), [], [(pipe.mk [(child_prog.mk (some [(str "false")]) none false [] 0 2 0)] 2 0), (pipe.mk [(child_prog.mk (some [(str "echo"), (str "yes")]) none false [] 0 2 0)] 3 0)], false, 0, 0, 2⟩, []⟩, ⟨false, (str "ho no" ++ [Char.ofNat 10])⟩, ⟨[], 0⟩⟩ : PSt) = .ret (.cont (⟨⟨(str "ech"), false, false⟩, ⟨⟨(child_prog.mk none none false [] 0 2 0), [], [(pipe.mk [(child_prog.mk (some [(str "false")]) none false [] 0 2 0)] 2 0), (pipe.mk [(child_prog.mk (some [(str "echo"), (str "yes")]) none false [] 0 2 0)] 3 0)], false, 0, 0, 2⟩, []⟩, ⟨false, (str "o no" ++ [Char.ofNat 10])⟩, ⟨[], 0⟩⟩ : PSt)) := by rfl
    have h22 : ps_step penv0 17 (cc (Char.ofNat 10)) (⟨⟨(str "ech"), false, false⟩, ⟨⟨(child_prog.mk none none false [] 0 2 0), [], [(pipe.mk [(child_prog.mk (some [(str "false")]) none false [] 0 2 0)] 2 0), (pipe.mk [(child_prog.mk (some [(str "echo"), (str "yes")]) none false [] 0 2 0)] 3 0)], false, 0, 0, 2⟩, []⟩, ⟨false, (str "o no" ++ [Char.ofNat 10])⟩, ⟨[], 0⟩⟩ : PSt) = .ret (.cont (⟨⟨(str "echo"), false, false⟩, ⟨⟨(child_prog.mk none none false [] 0 2 0), [], [(pipe.mk [(child_prog.mk (some [(str "false")]) none false [] 0 2 0)] 2 0), (pipe.mk [(child_prog.mk (some [(str "echo"), (str "yes")]) none false [] 0 2 0)] 3 0)], false, 0, 0, 2⟩, []⟩, ⟨false, (str " no" ++ [Char.ofNat 10])⟩, ⟨[], 0⟩⟩ : PSt)) := by rfl
    have h23 : ps_step penv0 16 (cc (Char.ofNat 10)) (⟨⟨(str "echo"), false, false⟩, ⟨⟨(child_prog.mk none none false [] 0 2 0), [], [(pipe.mk [(child_prog.mk (some [(str "false")]) none false [] 0 2 0)] 2 0), (pipe.mk [(child_prog.mk (some [(str "echo"), (str "yes")]) none false [] 0 2 0)] 3 0)], false, 0, 0, 2⟩, []⟩, ⟨false, (str " no" ++ [Char.ofNat 10])⟩, ⟨[], 0⟩⟩ : PSt) = .ret (.cont (⟨⟨([] : CStr), false, false⟩, ⟨⟨(child_prog.mk (some [(str "echo")]) none false [] 0 2 0), [], [(pipe.mk [(child_prog.mk (some [(str "false")]) none false [] 0 2 0)] 2 0), (pipe.mk [(child_prog.mk (some [(str "echo"), (str "yes")]) none false [] 0 2 0)] 3 0)], false, 0, 0, 2⟩, []⟩, ⟨false, (str "no" ++ [Char.ofNat 10])⟩, ⟨[], 0⟩⟩ : PSt)) := by rfl
    have h24 : ps_step penv0 15 (cc (Char.ofNat 10)) (⟨⟨([] : CStr), false, false⟩, ⟨⟨(child_prog.mk (some [(str "echo")]) none false [] 0 2 0), [], [(pipe.mk [(child_prog.mk (some [(str "false")]) none false [] 0 2 0)] 2 0), (pipe.mk [(child_prog.mk (some [(str "echo"), (str "yes")]) none false [] 0 2 0)] 3 0)], false, 0, 0, 2⟩, []⟩, ⟨false, (str "no" ++ [Char.ofNat 10])⟩, ⟨[], 0⟩⟩ : PSt) = .ret (.cont (⟨⟨(str "n"), false, false⟩, ⟨⟨(child_prog.mk (some [(str "echo")]) none false [] 0 2 0), [], [(pipe.mk [(child_prog.mk (some [(str "false")]) none false [] 0 2 0)] 2 0), (pipe.mk [(child_prog.mk (some [(str "echo"), (str "yes")]) none false [] 0 2 0)] 3 0)], false, 0, 0, 2⟩, []⟩, ⟨false, (str "o" ++ [Char.ofNat 10])⟩, ⟨[], 0⟩⟩ : PSt)) := by rfl
    have h25 : ps_step penv0 14 (cc (Char.ofNat 10)) (⟨⟨(str "n"), false, false⟩, ⟨⟨(child_prog.mk (some [(str "echo")]) none false [] 0 2 0), [], [(pipe.mk [(child_prog.mk (some [(str "false")]) none false [] 0 2 0)] 2 0), (pipe.mk [(child_prog.mk (some [(str "echo"), (str "yes")]) none false [] 0 2 0)] 3 0)], false, 0, 0, 2⟩, []⟩, ⟨false, (str "o" ++ [Char.ofNat 10])⟩, ⟨[], 0⟩⟩ : PSt) = .ret (.cont (⟨⟨(str "no"), false, false⟩, ⟨⟨(child_prog.mk (some [(str "echo")]) none false [] 0 2 0), [], [(pipe.mk [(child_prog.mk (some [(str "false")]) none false [] 0 2 0)] 2 0), (pipe.mk [(child_prog.mk (some [(str "echo"), (str "yes")]) none false [] 0 2 0)] 3 0)], false, 0, 0, 2⟩, []⟩, ⟨false, ([Char.ofNat 10])⟩, ⟨[], 0⟩⟩ : PSt)) := by rfl
    have h26 : ps_step penv0 13 (cc (Char.ofNat 10)) (⟨⟨(str "no"), false, false⟩, ⟨⟨(child_prog.mk (some [(str "echo")]) none false [] 0 2 0), [], [(pipe.mk [(child_prog.mk (some [(str "false")]) none false [] 0 2 0)] 2 0), (pipe.mk [(child_prog.mk (some [(str "echo"), (str "yes")]) none false [] 0 2 0)] 3 0)], false, 0, 0, 2⟩, []⟩, ⟨false, ([Char.ofNat 10])⟩, ⟨[], 0⟩⟩ : PSt) = .ret (.brk 0 false (⟨⟨([] : CStr), false, false⟩, ⟨⟨(child_prog.mk none none false [] 0 2 0), [], [(pipe.mk [(child_prog.mk (some [(str "false")]) none false [] 0 2 0)] 2 0), (pipe.mk [(child_prog.mk (some [(str "echo"), (str "yes")]) none false [] 0 2 0)] 3 0), (pipe.mk [(child_prog.mk (some [(str "echo"), (str "no")]) none false [] 0 2 0)] 1 0)], false, 0, 0, 2⟩, []⟩, ⟨false, ([] : CStr)⟩, ⟨[], 0⟩⟩ : PSt)) := by rfl
    exact ⟨(⟨⟨([] : CStr), false, false⟩, ⟨⟨(child_prog.mk none none false [] 0 2 0), [], [(pipe.mk [(child_prog.mk (some [(str "false")]) none false [] 0 2 0)] 2 0), (pipe.mk [(child_prog.mk (some [(str "echo"), (str "yes")]) none false [] 0 2 0)] 3 0), (pipe.mk [(child_prog.mk (some [(str "echo"), (str "no")]) none false [] 0 2 0)] 1 0)], false, 0, 0, 2⟩, []⟩, ⟨false, ([] : CStr)⟩, ⟨[], 0⟩⟩ : PSt),
      (parse_stream_step _ _ _ _ _ h0).trans
      ((parse_stream_step _ _ _ _ _ h1).trans
      ((parse_stream_step _ _ _ _ _ h2).trans
      ((parse_stream_step _ _ _ _ _ h3).trans
      ((parse_stream_step _ _ _ _ _ h4).trans
      ((parse_stream_step _ _ _ _ _ h5).trans
      ((parse_stream_step _ _ _ _ _ h6).trans
      ((parse_stream_step _ _ _ _ _ h7).trans
      ((parse_stream_step _ _ _ _ _ h8).trans
      ((parse_stream_step _ _ _ _ _ h9).trans
      ((parse_stream_step _ _ _ _ _ h10).trans
      ((parse_stream_step _ _ _ _ _ h11).trans
      ((parse_stream_step _ _ _ _ _ h12).trans
      ((parse_stream_step _ _ _ _ _ h13).trans
      ((parse_stream_step _ _ _ _ _ h14).trans
      ((parse_stream_step _ _ _ _ _ h15).trans
      ((parse_stream_step _ _ _ _ _ h16).trans
      ((parse_stream_step _ _ _ _ _ h17).trans
      ((parse_stream_step _ _ _ _ _ h18).trans
      ((parse_stream_step _ _ _ _ _ h19).trans
      ((parse_stream_step _ _ _ _ _ h20).trans
      ((parse_stream_step _ _ _ _ _ h21).trans
      ((parse_stream_step _ _ _ _ _ h22).trans
      ((parse_stream_step _ _ _ _ _ h23).trans
      ((parse_stream_step _ _ _ _ _ h24).trans
      ((parse_stream_step _ _ _ _ _ h25).trans
      (parse_stream_done _ _ _ _ _ _ _ h26)))))))))))))))))))))))))), rfl⟩
  case right => rfl

/-- C2 witness: the amended theorem at a shell state that already ran a
background job (one spawn logged, counter 5, last status 7): the list
still forks only `false` and ends with status 1. -/
theorem C2_amended_skip_through_or_witness :
    (∃ stF : PSt,
      parse_stream penv0 40 (cc (Char.ofNat 10))
        (pst0 "false && echo yes || echo no\n") =
        .ret (0, false, stF) ∧ stF.ctx.list_head = c2_parsed) ∧
    run_list_real eenv0 12 c2_parsed ⟨VarSt.init, 7, [[str "sleep"]], 5⟩ =
      .ret (1, ⟨VarSt.init, 1, [[str "sleep"], [str "false"]], 6⟩) :=
  C2_amended_skip_through_or ⟨VarSt.init, 7, [[str "sleep"]], 5⟩

/-- C8: counterexample.  With no command backgrounded since shell start
(last_bg_pid = 0, as in penv0), handle_dollar on `$!` consumes the `!`
and appends nothing at all to the word: the token buffer stays empty
rather than receiving the string `0` the claim promises. -/
theorem C8_counterexample :
    handle_dollar penv0 3
      ⟨NULL_O_STRING, initialize_context FLAG_PARSE_SEMICOLON,
       ⟨false, [Char.ofNat 33, Char.ofNat 10]⟩, ⟨[], 0⟩⟩ =
      .ret (0, ⟨NULL_O_STRING, initialize_context FLAG_PARSE_SEMICOLON,
        ⟨false, [Char.ofNat 10]⟩, ⟨[], 0⟩⟩) := by
  rfl

/-- C8 (amended): handle_dollar on `$!` appends the decimal digits of
last_bg_pid to the current word when a command has been backgrounded
(last_bg_pid > 0) and appends nothing when last_bg_pid is 0 (the
`if (last_bg_pid > 0)` guard makes `$!` expand to the empty string, not
`0`); and insert_bg_job records the pid of the backgrounded pipeline's
first process as last_bg_pid. -/
theorem C8_amended_bang (env : PEnv) (fuel : Nat) (st : PSt)
    (h : b_peek st.inp = cc (Char.ofNat 33)) :
    handle_dollar env (fuel + 1) st =
      .ret (0, { st with
        dest := if env.last_bg_pid > 0 then b_adduint st.dest env.last_bg_pid
                else st.dest
        inp := adv1 st.inp }) ∧
    ∀ (pi : pipe) (js : JobSt),
      (insert_bg_job pi js).last_bg_pid = (pi.progs.headD (empty_child 0)).pid := by
  constructor
  · simp only [handle_dollar, h]
    rw [if_neg (show ¬(c_isalpha (cc (Char.ofNat 33)) = true) from by decide),
        if_neg (show ¬(c_isdigit (cc (Char.ofNat 33)) = true) from by decide),
        if_neg (show ¬(cc (Char.ofNat 33) = cc '$') from by decide)]
    simp
  · intro pi js
    rfl

/-- C8 witness: the amended theorem at a concrete state whose next input
character is `!`, under penv0 (no background job yet): nothing is
appended. -/
theorem C8_amended_bang_witness :
    handle_dollar penv0 (4 + 1)
      ⟨⟨str "pid=", false, false⟩, initialize_context FLAG_PARSE_SEMICOLON,
       ⟨false, [Char.ofNat 33]⟩, ⟨[], 0⟩⟩ =
      .ret (0, ⟨⟨str "pid=", false, false⟩, initialize_context FLAG_PARSE_SEMICOLON,
        ⟨false, []⟩, ⟨[], 0⟩⟩) ∧
    ∀ (pi : pipe) (js : JobSt),
      (insert_bg_job pi js).last_bg_pid = (pi.progs.headD (empty_child 0)).pid := by
  have base := C8_amended_bang penv0 4
    ⟨⟨str "pid=", false, false⟩, initialize_context FLAG_PARSE_SEMICOLON,
     ⟨false, [Char.ofNat 33]⟩, ⟨[], 0⟩⟩ (by rfl)
  exact ⟨base.1, base.2⟩

end Hush


namespace Hush

set_option maxHeartbeats 1600000 in
set_option maxRecDepth 60000 in
/-- C3: counterexample.  The single-quoted word in `x 'a\b'` (the quoted
text is a, backslash, b, which contains no single quote, so the claim
applies) does not survive parsing verbatim: the committed argument vector
is [x, ab] -- the backslash has been removed, because done_word sends even
single-quoted words through xglob, whose globhack copy loop strips
backslashes.  The quoted content a\b thus yields the argument ab, not
a\b. -/
theorem C3_counterexample :
    ∃ stF : PSt,
      parse_stream penv0 8 (cc (Char.ofNat 10))
        (pstc (str "x " ++ Char.ofNat 39 :: (str "a" ++ Char.ofNat 92 :: str "b" ++
          Char.ofNat 39 :: [Char.ofNat 10]))) =
        .ret (0, false, stF) ∧
      stF.ctx.list_head =
        [pipe.mk [child_prog.mk (some [str "x", str "ab"]) none false [] 0 2 0] 1 0,
         pipe.mk [] 0 0] := by
  exact ⟨⟨⟨[], false, false⟩,
      ⟨⟨child_prog.mk none none false [] 0 2 0, [],
        [pipe.mk [child_prog.mk (some [str "x", str "ab"]) none false [] 0 2 0] 1 0],
        false, 0, 0, 2⟩, []⟩,
      ⟨false, []⟩, ⟨[], 0⟩⟩, by rfl, rfl⟩

set_option maxRecDepth 60000 in
/-- C3 (amended): for a string s free of single quotes, backslashes, glob
metacharacters (*, [, ?) and NUL, parsing `x 's'` as a simple command
commits exactly one extra argument whose text equals s: the quoted span
is copied verbatim by the quote loop, and with no backslash or glob
character present, xglob's globhack pass returns it unchanged. -/
theorem C3_amended_squote (s : CStr) (hq : '\'' ∉ s) (h92 : '\\' ∉ s)
    (hg : ∀ c ∈ s, ¬ chrIn c (str "*[?")) (h0 : Char.ofNat 0 ∉ s) :
    ∃ stF : PSt,
      parse_stream penv0 8 (cc (Char.ofNat 10))
        (pstc (str "x " ++ '\'' :: (s ++ '\'' :: [Char.ofNat 10]))) =
        .ret (0, false, stF) ∧
      stF.ctx.list_head =
        [pipe.mk [child_prog.mk (some [str "x", s]) none false [] 0 2 0] 1 0,
         pipe.mk [] 0 0] := by
  have h1 : ps_step penv0 7 (cc (Char.ofNat 10))
      (pstc (str "x " ++ '\'' :: (s ++ '\'' :: [Char.ofNat 10]))) =
      .ret (.cont ⟨⟨str "x", false, false⟩,
        ⟨⟨child_prog.mk none none false [] 0 2 0, [], [], false, 0, 0, 2⟩, []⟩,
        ⟨false, ' ' :: '\'' :: (s ++ '\'' :: [Char.ofNat 10])⟩, ⟨[], 0⟩⟩) := by
    with_unfolding_all rfl
  have h2 : ps_step penv0 6 (cc (Char.ofNat 10))
      (⟨⟨str "x", false, false⟩,
        ⟨⟨child_prog.mk none none false [] 0 2 0, [], [], false, 0, 0, 2⟩, []⟩,
        ⟨false, ' ' :: '\'' :: (s ++ '\'' :: [Char.ofNat 10])⟩, ⟨[], 0⟩⟩ : PSt) =
      .ret (.cont ⟨⟨[], false, false⟩,
        ⟨⟨child_prog.mk (some [str "x"]) none false [] 0 2 0, [], [], false, 0, 0, 2⟩, []⟩,
        ⟨false, '\'' :: (s ++ '\'' :: [Char.ofNat 10])⟩, ⟨[], 0⟩⟩) := by
    with_unfolding_all rfl
  exact ⟨⟨⟨[], false, false⟩,
      ⟨⟨child_prog.mk none none false [] 0 2 0, [],
        [pipe.mk [child_prog.mk (some [str "x", s]) none false [] 0 2 0] 1 0],
        false, 0, 0, 2⟩, []⟩,
      ⟨false, []⟩, ⟨[], 0⟩⟩,
    (parse_stream_step _ _ _ _ _ h1).trans
      ((parse_stream_step _ _ _ _ _ h2).trans
        ((parse_stream_step _ _ _ _ _
            (ps_step_squote 4
              ⟨⟨child_prog.mk (some [str "x"]) none false [] 0 2 0, [], [], false, 0, 0, 2⟩, []⟩
              ⟨[], 0⟩ s [Char.ofNat 10] hq h0)).trans
          (parse_stream_done _ _ _ _ _ _ _
            (ps_step_nl_commit 1 s ⟨[], 0⟩ h92 hg)))),
    rfl⟩

/-- C3 witness: the amended theorem at s = `a b` (a space inside single
quotes): `x 'a b'` parses to the two-argument command [x, a b]. -/
theorem C3_amended_squote_witness :
    ∃ stF : PSt,
      parse_stream penv0 8 (cc (Char.ofNat 10))
        (pstc (str "x " ++ '\'' :: (str "a b" ++ '\'' :: [Char.ofNat 10]))) =
        .ret (0, false, stF) ∧
      stF.ctx.list_head =
        [pipe.mk [child_prog.mk (some [str "x", str "a b"]) none false [] 0 2 0] 1 0,
         pipe.mk [] 0 0] :=
  C3_amended_squote (str "a b") (by decide) (by decide) (by decide) (by decide)

end Hush

namespace Hush

/-- a break with code 1 satisfies the parse_stream return contract -/
theorem ps_brk_one (trig : Int) (X : PSt) (r : Int) (e : Bool) (st2 : PSt)
    (h : (PRes.ret (StepOut.brk 1 false X) : PRes StepOut) =
      PRes.ret (StepOut.brk r e st2)) :
    (r = 0 ∨ r = 1 ∨ r = -1) ∧
    (r = -1 ↔ e = true ∧ ¬ trig = 0) ∧
    (e = true → b_getch st2.inp = none ∧ (r = 0 ↔ trig = 0)) ∧
    (r = 0 → e = false → st2.dest.quote = false ∧ st2.ctx.frame.w = RES_NONE) := by
  simp at h
  obtain ⟨h1, h2, h3⟩ := h
  subst h1; subst h2
  exact ⟨by norm_num, by norm_num, by simp, by norm_num⟩

/-- a break with code 0 at an unquoted terminator in reserved state
RES_NONE satisfies the parse_stream return contract -/
theorem ps_brk_zero (trig : Int) (X : PSt) (r : Int) (e : Bool) (st2 : PSt)
    (hq : ¬ X.dest.quote = true) (hw : X.ctx.frame.w = RES_NONE)
    (h : (PRes.ret (StepOut.brk 0 false X) : PRes StepOut) =
      PRes.ret (StepOut.brk r e st2)) :
    (r = 0 ∨ r = 1 ∨ r = -1) ∧
    (r = -1 ↔ e = true ∧ ¬ trig = 0) ∧
    (e = true → b_getch st2.inp = none ∧ (r = 0 ↔ trig = 0)) ∧
    (r = 0 → e = false → st2.dest.quote = false ∧ st2.ctx.frame.w = RES_NONE) := by
  simp at h
  obtain ⟨h1, h2, h3⟩ := h
  subst h1; subst h2; subst h3
  exact ⟨Or.inl rfl, by norm_num, by simp, fun _ _ => ⟨by simpa using hq, hw⟩⟩

set_option maxHeartbeats 4000000 in
theorem ps_step_brk_props (env : PEnv) (n : Nat) (trig : Int) (st : PSt)
    (r : Int) (e : Bool) (st2 : PSt)
    (h : ps_step env n trig st = .ret (.brk r e st2)) :
    (r = 0 ∨ r = 1 ∨ r = -1) ∧
    (r = -1 ↔ e = true ∧ ¬ trig = 0) ∧
    (e = true → b_getch st2.inp = none ∧ (r = 0 ↔ trig = 0)) ∧
    (r = 0 → e = false → st2.dest.quote = false ∧ st2.ctx.frame.w = RES_NONE) := by
  cases n with
  | zero => simp [ps_step] at h
  | succ m =>
    simp only [ps_step] at h
    rcases hg : b_getch st.inp with _ | ⟨ch, inp1⟩
    · rw [hg] at h
      by_cases ht : trig = 0
      · subst ht
        norm_num at h
        obtain ⟨h1, h2, h3⟩ := h
        subst h1; subst h2; subst h3
        exact ⟨Or.inl rfl, by norm_num, fun _ => ⟨hg, by norm_num⟩, by simp⟩
      · rw [if_pos ht] at h
        simp at h
        obtain ⟨h1, h2, h3⟩ := h
        subst h1; subst h2; subst h3
        exact ⟨Or.inr (Or.inr rfl), by simp [ht], fun _ => ⟨hg, by simp [ht]⟩,
          by norm_num⟩
    · simp only [hg] at h
      by_cases hA : env.map ch = 0 ∨ (env.map ch = 1 ∨ env.map ch = 2) ∧ st.dest.quote = true
      · rw [if_pos hA] at h; exact absurd h (by simp)
      · rw [if_neg hA] at h
        by_cases hB : env.map ch = 2
        · rw [if_pos hB] at h
          rcases hdw : done_word env m st.dest st.ctx st.gst with msg | _ | ⟨dw, dest', ctx', gst'⟩
          · simp only [hdw] at h; exact absurd h (by simp)
          · simp only [hdw] at h; exact absurd h (by simp)
          · simp only [hdw] at h
            by_cases hdw0 : dw ≠ 0
            · rw [if_pos hdw0] at h
              exact ps_brk_one trig _ r e st2 h
            · rw [if_neg hdw0] at h
              by_cases hC : cc ch = trig ∧ ¬dest'.quote = true ∧
                  (if trig ≠ 0 ∧ ch = '\n' then done_pipe ctx' PIPE_SEQ else ctx').frame.w = RES_NONE
              · rw [if_pos hC] at h
                exact ps_brk_zero trig ⟨dest', if trig ≠ 0 ∧ ch = Char.ofNat 10 then done_pipe ctx' PIPE_SEQ else ctx', inp1, gst'⟩ r e st2 hC.2.1 hC.2.2 h
              · rw [if_neg hC] at h; exact absurd h (by simp)
        · rw [if_neg hB] at h
          by_cases hC0 : cc ch = trig ∧ ¬st.dest.quote = true ∧ st.ctx.frame.w = RES_NONE
          · rw [if_pos hC0] at h
            exact ps_brk_zero trig ⟨st.dest, st.ctx, inp1, st.gst⟩ r e st2 hC0.2.1 hC0.2.2 h
          · rw [if_neg hC0] at h
            by_cases hHH : ch = '#'
            · rw [if_pos hHH] at h
              by_cases hHc : st.dest.data = [] ∧ ¬st.dest.quote = true
              · rw [if_pos hHc] at h; exact absurd h (by simp)
              · rw [if_neg hHc] at h; exact absurd h (by simp)
            · rw [if_neg hHH] at h
              by_cases hBS : ch = '\\'
              · rw [if_pos hBS] at h
                by_cases hPK : (if ch = '\n' then 0 else b_peek inp1) = -1
                · rw [if_pos hPK] at h
                  exact ps_brk_one trig _ r e st2 h
                · rw [if_neg hPK] at h
                  rcases hg2 : b_getch inp1 with _ | ⟨c2, inp2⟩
                  · simp only [hg2] at h; exact absurd h (by simp)
                  · simp only [hg2] at h; exact absurd h (by simp)
              · rw [if_neg hBS] at h
                by_cases hDL : ch = '$'
                · rw [if_pos hDL] at h
                  rcases hhd : handle_dollar env m
                      { dest := st.dest, ctx := st.ctx, inp := inp1, gst := st.gst } with
                    msg | _ | ⟨r1, stx⟩
                  · simp only [hhd] at h; exact absurd h (by simp)
                  · simp only [hhd] at h; exact absurd h (by simp)
                  · simp only [hhd] at h
                    by_cases hr1 : r1 ≠ 0
                    · rw [if_pos hr1] at h
                      exact ps_brk_one trig _ r e st2 h
                    · rw [if_neg hr1] at h; exact absurd h (by simp)
                · rw [if_neg hDL] at h
                  by_cases hSQ : ch = '\''
                  · rw [if_pos hSQ] at h
                    rcases hsq : squote_loop inp1.isFile inp1.chars
                        { data := st.dest.data, quote := st.dest.quote, nonnull := true } with
                      ⟨b, dest2, cs2⟩
                    simp only [hsq] at h
                    cases b
                    · exact ps_brk_one trig _ r e st2 h
                    · exact absurd h (by simp)
                  · rw [if_neg hSQ] at h
                    by_cases hDQ : ch = '"'
                    · rw [if_pos hDQ] at h; exact absurd h (by simp)
                    · rw [if_neg hDQ] at h
                      by_cases hBT : ch = '`'
                      · rw [if_pos hBT] at h
                        rcases hps : process_command_subs env m (cc '`')
                            { dest := st.dest, ctx := st.ctx, inp := inp1, gst := st.gst } with
                          msg | _ | ⟨r2, stx⟩
                        · simp only [hps] at h; exact absurd h (by simp)
                        · simp only [hps] at h; exact absurd h (by simp)
                        · simp only [hps] at h; exact absurd h (by simp)
                      · rw [if_neg hBT] at h
                        by_cases hGT : ch = '>'
                        · rw [if_pos hGT] at h
                          rcases hdw2 : done_word env m (redirect_opt_num st.dest).2 st.ctx st.gst with
                            msg | _ | ⟨f2, dest2, ctx2, gst2⟩
                          · simp only [hdw2] at h; exact absurd h (by simp)
                          · simp only [hdw2] at h; exact absurd h (by simp)
                          · simp only [hdw2] at h
                            by_cases hpk2 : (if ch = '\n' then 0 else b_peek inp1) = cc '('
                            · rw [if_pos hpk2] at h
                              exact ps_brk_one trig _ r e st2 h
                            · rw [if_neg hpk2] at h; exact absurd h (by simp)
                        · rw [if_neg hGT] at h
                          by_cases hLT : ch = '<'
                          · rw [if_pos hLT] at h
                            rcases hdw3 : done_word env m (redirect_opt_num st.dest).2 st.ctx st.gst with
                              msg | _ | ⟨f3, dest3, ctx3, gst3⟩
                            · simp only [hdw3] at h; exact absurd h (by simp)
                            · simp only [hdw3] at h; exact absurd h (by simp)
                            · simp only [hdw3] at h
                              by_cases hpk3 : (if ch = '\n' then 0 else b_peek inp1) = cc '('
                              · rw [if_pos hpk3] at h
                                exact ps_brk_one trig _ r e st2 h
                              · rw [if_neg hpk3] at h; exact absurd h (by simp)
                          · rw [if_neg hLT] at h
                            by_cases hSC : ch = ';'
                            · rw [if_pos hSC] at h
                              rcases hdw4 : done_word env m st.dest st.ctx st.gst with
                                msg | _ | ⟨f4, dest4, ctx4, gst4⟩
                              · simp only [hdw4] at h; exact absurd h (by simp)
                              · simp only [hdw4] at h; exact absurd h (by simp)
                              · simp only [hdw4] at h; exact absurd h (by simp)
                            · rw [if_neg hSC] at h
                              by_cases hAMP : ch = '&'
                              · rw [if_pos hAMP] at h
                                rcases hdw5 : done_word env m st.dest st.ctx st.gst with
                                  msg | _ | ⟨f5, dest5, ctx5, gst5⟩
                                · simp only [hdw5] at h; exact absurd h (by simp)
                                · simp only [hdw5] at h; exact absurd h (by simp)
                                · simp only [hdw5] at h
                                  by_cases hpk5 : (if ch = '\n' then 0 else b_peek inp1) = cc '&'
                                  · rw [if_pos hpk5] at h; exact absurd h (by simp)
                                  · rw [if_neg hpk5] at h; exact absurd h (by simp)
                              · rw [if_neg hAMP] at h
                                by_cases hPP : ch = '|'
                                · rw [if_pos hPP] at h
                                  rcases hdw6 : done_word env m st.dest st.ctx st.gst with
                                    msg | _ | ⟨f6, dest6, ctx6, gst6⟩
                                  · simp only [hdw6] at h; exact absurd h (by simp)
                                  · simp only [hdw6] at h; exact absurd h (by simp)
                                  · simp only [hdw6] at h
                                    by_cases hpk6 : (if ch = '\n' then 0 else b_peek inp1) = cc '|'
                                    · rw [if_pos hpk6] at h; exact absurd h (by simp)
                                    · rw [if_neg hpk6] at h; exact absurd h (by simp)
                                · rw [if_neg hPP] at h
                                  by_cases hGRP : ch = '(' ∨ ch = '{'
                                  · rw [if_pos hGRP] at h
                                    rcases hpg : parse_group env m ch
                                        { dest := st.dest, ctx := st.ctx, inp := inp1, gst := st.gst } with
                                      msg | _ | ⟨r7, stx⟩
                                    · simp only [hpg] at h; exact absurd h (by simp)
                                    · simp only [hpg] at h; exact absurd h (by simp)
                                    · simp only [hpg] at h
                                      by_cases hr7 : r7 ≠ 0
                                      · rw [if_pos hr7] at h
                                        exact ps_brk_one trig _ r e st2 h
                                      · rw [if_neg hr7] at h; exact absurd h (by simp)
                                  · rw [if_neg hGRP] at h
                                    by_cases hCLS : ch = ')' ∨ ch = '}'
                                    · rw [if_pos hCLS] at h
                                      exact ps_brk_one trig _ r e st2 h
                                    · rw [if_neg hCLS] at h
                                      exact ps_brk_one trig _ r e st2 h

end Hush

namespace Hush

/-- C4: parse_stream's return contract.  Every normal return satisfies:
the code is 0, 1 or -1; it is -1 exactly when the end of input was
reached while a nonzero terminator was still pending; at an end-of-input
exit the stream is exhausted and the code is 0 exactly when the
terminator was NUL ('\0'); and a 0 return that did not come from the
end of input stopped at the unquoted terminator, with the quote state
clear and the reserved-word state RES_NONE.  All other exits (the
syntax-error returns) carry code 1. -/
theorem C4_parse_stream_result (env : PEnv) (fuel : Nat) (trig : Int) (st st' : PSt)
    (r : Int) (e : Bool)
    (h : parse_stream env fuel trig st = .ret (r, e, st')) :
    (r = 0 ∨ r = 1 ∨ r = -1) ∧
    (r = -1 ↔ e = true ∧ ¬ trig = 0) ∧
    (e = true → b_getch st'.inp = none ∧ (r = 0 ↔ trig = 0)) ∧
    (r = 0 → e = false → st'.dest.quote = false ∧ st'.ctx.frame.w = RES_NONE) := by
  induction fuel generalizing st with
  | zero => simp [parse_stream] at h
  | succ m ih =>
    simp only [parse_stream] at h
    rcases hs : ps_step env m trig st with msg | _ | out
    · rw [hs] at h; exact absurd h (by simp)
    · rw [hs] at h; exact absurd h (by simp)
    · rcases out with ⟨r0, e0, st0⟩ | st0
      · simp only [hs] at h
        injection h with hp
        injection hp with ha hbc
        injection hbc with hb hc
        subst ha; subst hb; subst hc
        exact ps_step_brk_props env m trig st _ _ _ hs
      · simp only [hs] at h
        exact ih st0 h

/-- C4 witness: the contract at a concrete run: parsing empty input with
terminator NUL returns (0, atEof, unchanged state). -/
theorem C4_parse_stream_result_witness :
    ((0 : Int) = 0 ∨ (0 : Int) = 1 ∨ (0 : Int) = -1) ∧
    ((0 : Int) = -1 ↔ true = true ∧ ¬ (0 : Int) = 0) ∧
    (true = true → b_getch (pstc []).inp = none ∧ ((0 : Int) = 0 ↔ (0 : Int) = 0)) ∧
    ((0 : Int) = 0 → true = false →
      (pstc []).dest.quote = false ∧ (pstc []).ctx.frame.w = RES_NONE) :=
  C4_parse_stream_result penv0 2 0 (pstc []) (pstc []) 0 true (by rfl)

end Hush
